import Mathlib

/-!
Shallow embedding of `lib/services/lib/SecurityService.js` (LaborX backend).

The mongo collections (`SecurityUser`, `SecuritySignature`, `SecurityToken`,
`SecurityCheck`, `VerificationRequest`) are modelled as lists inside a `Store`
record; `findOne` is `List.find?`, `create` appends a record with a fresh id
drawn from a counter, a document `save` writes the mutated record back by id,
and `remove` filters the record out by id.  Dispatched mail is recorded in a
`mails` list.  Operations that can throw return an `Except` value paired with
the store reached at the point of return, so state mutated before a throw is
kept — as it is in the JavaScript source.
-/

namespace LaborX

/-- Level-2 contact data on a `SecurityUser` document (`user.level2`). -/
structure UserContact where
  email : String
  phone : String
deriving DecidableEq

/-- A `SecurityUser` document: the fields the service reads. -/
structure User where
  id : Nat
  name : String
  level2 : UserContact
deriving DecidableEq

/-- A `SecuritySignature` document: binds an address value and type to a user. -/
structure Signature where
  id : Nat
  user : Nat
  type : String
  value : String
deriving DecidableEq

/-- A `SecurityToken` document. -/
structure Token where
  id : Nat
  user : Nat
  purpose : String
  token : String
deriving DecidableEq

/-- A `SecurityCheck` document: a one-time code (`check`) scoped to a user,
a type (`confirm-email` / `confirm-phone`) and a payload (the contact value). -/
structure Check where
  id : Nat
  user : Nat
  type : String
  payload : String
  check : String
deriving DecidableEq

/-- The `level1` sub-document of a `VerificationRequest`. -/
structure Level1Data where
  userName : String
  birthDate : String
  avatar : String
  validationComment : Option String
  isValid : Bool
deriving DecidableEq

/-- The `level2` sub-document of a `VerificationRequest`. -/
structure Level2Data where
  email : String
  phone : String
  isEmailConfirmed : Bool
  isPhoneConfirmed : Bool
  validationComment : Option String
  isValid : Bool
deriving DecidableEq

/-- The `level3` sub-document of a `VerificationRequest`. -/
structure Level3Data where
  passport : String
  expirationDate : String
  attachments : List String
deriving DecidableEq

/-- The `level4` sub-document of a `VerificationRequest`. -/
structure Level4Data where
  country : String
  state : String
  city : String
  zip : String
  addressLine1 : String
  addressLine2 : String
  attachments : List String
deriving DecidableEq

/-- A `VerificationRequest` document.  Each level sub-document is optional,
as in the mongoose schema only the submitted level is populated. -/
structure VRequest where
  id : Nat
  user : Nat
  level : String
  status : String
  level1 : Option Level1Data := none
  level2 : Option Level2Data := none
  level3 : Option Level3Data := none
  level4 : Option Level4Data := none
deriving DecidableEq

/-- An e-mail handed to the mail collaborator (`new Message(...).send()`);
`toAddr` models the message's `to` field. -/
structure Mail where
  toAddr : String
  subject : String
  html : String
deriving DecidableEq

/-- The persistent state seen by the service: one list per collection plus a
counter supplying fresh document ids and fresh one-time codes. -/
structure Store where
  users : List User
  signatures : List Signature
  tokens : List Token
  checks : List Check
  requests : List VRequest
  mails : List Mail
  nextId : Nat
deriving DecidableEq

/-- Payload of `VerificationRequestLevel1Model`. -/
structure VerificationRequestLevel1Model where
  userName : String
  birthDate : String
  avatar : String
deriving DecidableEq

/-- Payload of `VerificationRequestLevel2Model`. -/
structure VerificationRequestLevel2Model where
  email : String
  phone : String
deriving DecidableEq

/-- Payload of `VerificationRequestLevel3Model`. -/
structure VerificationRequestLevel3Model where
  passport : String
  expirationDate : String
  attachments : List String
deriving DecidableEq

/-- Payload of `VerificationRequestLevel4Model`. -/
structure VerificationRequestLevel4Model where
  country : String
  state : String
  city : String
  zip : String
  addressLine1 : String
  addressLine2 : String
  attachments : List String
deriving DecidableEq

/-- Payload of `ConfirmationRequestLevel2Model`: each code may be absent. -/
structure ConfirmationRequestLevel2Model where
  emailCode : Option String
  phoneCode : Option String
deriving DecidableEq

/-- What a call may fail with.  `webError` is `new WebError(msg, code)`;
`assertionFailed` is a node `assert` firing; `typeError` is the JavaScript
runtime error raised when a property of `null` is accessed; `notFound` is the
structured not-found error of the spec's taxonomy (never produced by this
service, kept so that claims about it can be stated). -/
inductive SvcError where
  | webError (message : String) (code : Nat)
  | assertionFailed
  | typeError
  | notFound
deriving DecidableEq

/-- The result object of `confirmLevel2Request`. -/
structure ConfirmResult where
  isEmailTried : Bool
  isEmailVerified : Bool
  isPhoneTried : Bool
  isPhoneVerified : Bool
deriving DecidableEq

/-- A person model: the bound user merged with the matched address
(`PersonModel.fromMongo(signature.user, { address: signature.value })`). -/
structure Person where
  user : User
  address : String
deriving DecidableEq

/-- JavaScript truthiness of an optional string (`if (requestModel.emailCode)`):
absent and empty are falsy. -/
def truthy : Option String → Bool
  | none => false
  | some s => !(s == "")

/-- Fresh one-time code / token value generated by the schema default on
`create`; modelled as the decimal print of the allocation counter. -/
def freshCode (n : Nat) : String := toString n

/-- Modelled from the spec: the configuration value `config.get('mail.baseURL')`
is not under src; it is an opaque external string. -/
def mailBaseURL : String := "https://profile.example"

/-- Modelled from the spec: the template collaborator `confirmTemplate` from
`mail` is not under src; per the spec it is a pure function mapping
baseURL, username and check code to a subject and a content string. -/
def confirmTemplate (baseURL username check : String) : String × String :=
  ("Confirm e-mail", baseURL ++ "/confirm/" ++ username ++ "/" ++ check)

/-- JavaScript `address.toLowerCase()`: lower-case every character. -/
def jsToLower (s : String) : String := String.mk (s.data.map Char.toLower)

/-- Filter of `VerificationRequest.model.findOne({user, level, status: 'created'})`. -/
def createdReqP (uid : Nat) (lvl : String) (r : VRequest) : Bool :=
  r.user == uid && r.level == lvl && r.status == "created"

/-- `VerificationRequest.model.findOne({user, level, status: 'created'})`. -/
def findCreatedRequest (s : Store) (uid : Nat) (lvl : String) : Option VRequest :=
  s.requests.find? (createdReqP uid lvl)

/-- Filter of `SecurityCheck.model.remove({user, type})`. -/
def checkScopeP (uid : Nat) (ty : String) (c : Check) : Bool :=
  c.user == uid && c.type == ty

/-- Filter of `SecurityCheck.model.findOne({user, type, payload, check})`. -/
def checkMatchP (uid : Nat) (ty payload code : String) (c : Check) : Bool :=
  c.user == uid && c.type == ty && c.payload == payload && c.check == code

/-- The checks stored for a (user, type) scope. -/
def checksFor (s : Store) (uid : Nat) (ty : String) : List Check :=
  s.checks.filter (checkScopeP uid ty)

/-- `request.save()`: write the mutated document back over every stored record
with its id. -/
def saveRequest (s : Store) (r : VRequest) : Store :=
  { s with requests := s.requests.map (fun q => if q.id == r.id then r else q) }

/-- `selectPerson(address)`: lower-case the address, look the signature up by
(value, type 'ethereum-address') with the user populated, and build the person
model.  When no signature matches, `findOne` yields `null` and the subsequent
`signature.user` access raises a TypeError. -/
def selectPerson (s : Store) (address : String) : Except SvcError Person :=
  match s.signatures.find? (fun g => g.value == jsToLower address && g.type == "ethereum-address") with
  | none => .error .typeError
  | some g =>
    match s.users.find? (fun u => u.id == g.user) with
    | none => .error .typeError
    | some u => .ok { user := u, address := g.value }

/-- `requireSignature({type, value})`: return the existing signature, else
create a user named `type:value`, create the signature bound to it, and re-read
the signature by id. -/
def requireSignature (s : Store) (type value : String) :
    Except SvcError Signature × Store :=
  match s.signatures.find? (fun g => g.value == value && g.type == type) with
  | some g => (.ok g, s)
  | none =>
    let u : User :=
      { id := s.nextId, name := type ++ ":" ++ value, level2 := { email := "", phone := "" } }
    let s1 : Store := { s with users := s.users ++ [u], nextId := s.nextId + 1 }
    let g : Signature := { id := s1.nextId, user := u.id, type := type, value := value }
    let s2 : Store := { s1 with signatures := s1.signatures ++ [g], nextId := s1.nextId + 1 }
    match s2.signatures.find? (fun x => x.id == g.id) with
    | some x => (.ok x, s2)
    | none => (.error .typeError, s2)

/-- `removeToken({token})`: look the token up by value, then `result.remove()`.
When no token matches, `findOne` yields `null` and `null.remove()` raises a
TypeError before anything is deleted. -/
def removeToken (s : Store) (tokenValue : String) : Except SvcError Token × Store :=
  match s.tokens.find? (fun t => t.token == tokenValue) with
  | none => (.error .typeError, s)
  | some t =>
    (.ok t, { s with tokens := s.tokens.filter (fun x => !(x.id == t.id)) })

/-- `upsertLevel1Request(user, requestModel)`: mutate the pending level-1
request in place (review fields reset), else create one. -/
def upsertLevel1Request (s : Store) (u : User) (m : VerificationRequestLevel1Model) : Store :=
  let d : Level1Data :=
    { userName := m.userName, birthDate := m.birthDate, avatar := m.avatar,
      validationComment := none, isValid := false }
  match findCreatedRequest s u.id "level-1" with
  | some r =>
    saveRequest s { r with level1 := some d }
  | none =>
    let r : VRequest :=
      { id := s.nextId, user := u.id, level := "level-1", status := "created",
        level1 := some d }
    { s with requests := s.requests ++ [r], nextId := s.nextId + 1 }

/-- `upsertLevel3Request(user, requestModel)`. -/
def upsertLevel3Request (s : Store) (u : User) (m : VerificationRequestLevel3Model) : Store :=
  let d : Level3Data :=
    { passport := m.passport, expirationDate := m.expirationDate,
      attachments := m.attachments }
  match findCreatedRequest s u.id "level-3" with
  | some r =>
    saveRequest s { r with level3 := some d }
  | none =>
    let r : VRequest :=
      { id := s.nextId, user := u.id, level := "level-3", status := "created",
        level3 := some d }
    { s with requests := s.requests ++ [r], nextId := s.nextId + 1 }

/-- `upsertLevel4Request(user, requestModel)`. -/
def upsertLevel4Request (s : Store) (u : User) (m : VerificationRequestLevel4Model) : Store :=
  let d : Level4Data :=
    { country := m.country, state := m.state, city := m.city, zip := m.zip,
      addressLine1 := m.addressLine1, addressLine2 := m.addressLine2,
      attachments := m.attachments }
  match findCreatedRequest s u.id "level-4" with
  | some r =>
    saveRequest s { r with level4 := some d }
  | none =>
    let r : VRequest :=
      { id := s.nextId, user := u.id, level := "level-4", status := "created",
        level4 := some d }
    { s with requests := s.requests ++ [r], nextId := s.nextId + 1 }

/-- `validatePhone(user)`: require a pending level-2 request whose phone is not
confirmed (else `WebError('Illegal state', 401)`), remove every confirm-phone
check of the user, and create a fresh one with the pending phone as payload. -/
def validatePhone (s : Store) (u : User) : Except SvcError Unit × Store :=
  match findCreatedRequest s u.id "level-2" with
  | none => (.error (.webError "Illegal state" 401), s)
  | some r =>
    match r.level2 with
    | none => (.error (.webError "Illegal state" 401), s)
    | some d =>
      if d.isPhoneConfirmed then (.error (.webError "Illegal state" 401), s)
      else
        let s1 : Store :=
          { s with checks := s.checks.filter (fun c => !(checkScopeP u.id "confirm-phone" c)) }
        let c : Check :=
          { id := s1.nextId, user := u.id, type := "confirm-phone",
            payload := d.phone, check := freshCode s1.nextId }
        (.ok (), { s1 with checks := s1.checks ++ [c], nextId := s1.nextId + 1 })

/-- `validateEmail(user)`: same as the phone path for confirm-email, then
render the confirmation template and dispatch the message. -/
def validateEmail (s : Store) (u : User) : Except SvcError Unit × Store :=
  match findCreatedRequest s u.id "level-2" with
  | none => (.error (.webError "Illegal state" 401), s)
  | some r =>
    match r.level2 with
    | none => (.error (.webError "Illegal state" 401), s)
    | some d =>
      if d.isEmailConfirmed then (.error (.webError "Illegal state" 401), s)
      else
        let s1 : Store :=
          { s with checks := s.checks.filter (fun c => !(checkScopeP u.id "confirm-email" c)) }
        let c : Check :=
          { id := s1.nextId, user := u.id, type := "confirm-email",
            payload := d.email, check := freshCode s1.nextId }
        let s2 : Store := { s1 with checks := s1.checks ++ [c], nextId := s1.nextId + 1 }
        let t := confirmTemplate mailBaseURL u.name c.check
        let msg : Mail := { toAddr := d.email, subject := t.1, html := t.2 }
        (.ok (), { s2 with mails := s2.mails ++ [msg] })

/-- The two re-verification triggers at the end of `upsertLevel2Request`,
guarded by the confirmation flags of the request object just written. -/
def afterUpsert2 (s : Store) (u : User) (d : Level2Data) : Except SvcError Unit × Store :=
  if !d.isPhoneConfirmed then
    match validatePhone s u with
    | (.error e, s1) => (.error e, s1)
    | (.ok _, s1) =>
      if !d.isEmailConfirmed then validateEmail s1 u else (.ok (), s1)
  else
    if !d.isEmailConfirmed then validateEmail s u else (.ok (), s)

/-- The `level2` sub-document written by the update branch of
`upsertLevel2Request`: submitted contacts, a confirmation flag surviving
exactly when the submitted value equals the stored pending one, review fields
reset. -/
def level2Updated (m : VerificationRequestLevel2Model) (d : Level2Data) : Level2Data :=
  { email := m.email, phone := m.phone,
    isEmailConfirmed := if m.email == d.email then d.isEmailConfirmed else false,
    isPhoneConfirmed := if m.phone == d.phone then d.isPhoneConfirmed else false,
    validationComment := none, isValid := false }

/-- The `level2` sub-document written by the create branch of
`upsertLevel2Request`: flags set by comparison against the account's current
contact values. -/
def level2Created (u : User) (m : VerificationRequestLevel2Model) : Level2Data :=
  { email := m.email, phone := m.phone,
    isEmailConfirmed := m.email == u.level2.email,
    isPhoneConfirmed := m.phone == u.level2.phone,
    validationComment := none, isValid := false }

/-- `upsertLevel2Request(user, requestModel)`: mutate the pending level-2
request in place — a confirmation flag survives exactly when the submitted
contact equals the stored pending one — or create it, comparing against the
account's current contact values; then run the re-verification triggers. -/
def upsertLevel2Request (s : Store) (u : User) (m : VerificationRequestLevel2Model) :
    Except SvcError Unit × Store :=
  match findCreatedRequest s u.id "level-2" with
  | some r =>
    match r.level2 with
    | none => (.error .typeError, s)
    | some d =>
      let d2 := level2Updated m d
      let s1 := saveRequest s { r with level2 := some d2 }
      afterUpsert2 s1 u d2
  | none =>
    let d2 := level2Created u m
    let r : VRequest :=
      { id := s.nextId, user := u.id, level := "level-2", status := "created",
        level2 := some d2 }
    let s1 : Store := { s with requests := s.requests ++ [r], nextId := s.nextId + 1 }
    afterUpsert2 s1 u d2

/-- The email branch of `confirmLevel2Request`: when a truthy code was
submitted, look the check up by (user, confirm-email, pending email, code);
on a hit remove it and set the in-memory flag.  Yields (tried, verified,
request object, store). -/
def confirmEmailPhase (s : Store) (u : User) (r : VRequest) (emailCode : Option String) :
    Except SvcError (Bool × Bool × VRequest × Store) :=
  if truthy emailCode then
    match r.level2 with
    | none => .error .typeError
    | some d =>
      match s.checks.find? (checkMatchP u.id "confirm-email" d.email (emailCode.getD "")) with
      | none => .ok (true, false, r, s)
      | some c =>
        .ok (true, true,
          { r with level2 := some { d with isEmailConfirmed := true } },
          { s with checks := s.checks.filter (fun x => !(x.id == c.id)) })
  else
    .ok (false, false, r, s)

/-- The phone branch of `confirmLevel2Request`, mirroring the email branch. -/
def confirmPhonePhase (s : Store) (u : User) (r : VRequest) (phoneCode : Option String) :
    Except SvcError (Bool × Bool × VRequest × Store) :=
  if truthy phoneCode then
    match r.level2 with
    | none => .error .typeError
    | some d =>
      match s.checks.find? (checkMatchP u.id "confirm-phone" d.phone (phoneCode.getD "")) with
      | none => .ok (true, false, r, s)
      | some c =>
        .ok (true, true,
          { r with level2 := some { d with isPhoneConfirmed := true } },
          { s with checks := s.checks.filter (fun x => !(x.id == c.id)) })
  else
    .ok (false, false, r, s)

/-- `confirmLevel2Request(user, requestModel)`: assert a pending level-2
request, run the email branch then the phone branch, save the request only
when a flag was set, and return the four booleans. -/
def confirmLevel2Request (s : Store) (u : User) (m : ConfirmationRequestLevel2Model) :
    Except SvcError ConfirmResult × Store :=
  match findCreatedRequest s u.id "level-2" with
  | none => (.error .assertionFailed, s)
  | some r =>
    match confirmEmailPhase s u r m.emailCode with
    | .error e => (.error e, s)
    | .ok (isEmailTried, isEmailVerified, r1, s1) =>
      match confirmPhonePhase s1 u r1 m.phoneCode with
      | .error e => (.error e, s1)
      | .ok (isPhoneTried, isPhoneVerified, r2, s2) =>
        let s3 := if isPhoneVerified || isEmailVerified then saveRequest s2 r2 else s2
        (.ok { isEmailTried := isEmailTried, isEmailVerified := isEmailVerified,
               isPhoneTried := isPhoneTried, isPhoneVerified := isPhoneVerified }, s3)

/-! ### Invariants and helper lemmas -/

/-- Two verification requests do not occupy the same (account, level) scope
while both are in status `created`. -/
def distinctScope (a b : VRequest) : Prop :=
  ¬(a.user = b.user ∧ a.level = b.level ∧ a.status = "created" ∧ b.status = "created")

instance (a b : VRequest) : Decidable (distinctScope a b) := by
  unfold distinctScope; infer_instance

/-- The store holds at most one `created` request per (account, level). -/
def uniqueCreated (s : Store) : Prop := s.requests.Pairwise distinctScope

instance (s : Store) : Decidable (uniqueCreated s) := by
  unfold uniqueCreated; infer_instance

/-! ### Sample records used to instantiate the theorems on concrete inputs -/

/-- An empty store with some allocation headroom. -/
def store0 : Store :=
  { users := [], signatures := [], tokens := [], checks := [], requests := [], mails := [],
    nextId := 5 }

/-- The fully empty store. -/
def emptyStore : Store :=
  { users := [], signatures := [], tokens := [], checks := [], requests := [], mails := [],
    nextId := 0 }

def sampleUser : User :=
  { id := 1, name := "alice", level2 := { email := "a@x.com", phone := "+1000" } }

def sampleSig : Signature :=
  { id := 2, user := 1, type := "ethereum-address", value := "0xab" }

def sigStore : Store :=
  { users := [sampleUser], signatures := [sampleSig], tokens := [], checks := [],
    requests := [], mails := [], nextId := 3 }

def sampleToken : Token := { id := 1, user := 1, purpose := "login", token := "tok-1" }

def tokenStore : Store :=
  { users := [], signatures := [], tokens := [sampleToken], checks := [], requests := [],
    mails := [], nextId := 2 }

/-- A pending, unconfirmed level-2 payload. -/
def pendingD : Level2Data :=
  { email := "a@x.com", phone := "+2000", isEmailConfirmed := false,
    isPhoneConfirmed := false, validationComment := none, isValid := false }

/-- A pending level-2 verification request of `sampleUser`. -/
def pendingL2 : VRequest :=
  { id := 10, user := 1, level := "level-2", status := "created", level2 := some pendingD }

/-- A store holding `sampleUser` and their pending level-2 request. -/
def level2Store : Store :=
  { users := [sampleUser], signatures := [], tokens := [], checks := [],
    requests := [pendingL2], mails := [], nextId := 20 }

/-- Follows the spec's words (claim C2): the email confirmation flag resulting
from a level-2 submission — preserved exactly when the submitted email equals
the one on the prior pending request, or, when no pending request exists, set
by comparison against the account's current contact value; false otherwise. -/
def specEmailFlagAfter (s : Store) (u : User) (email : String) : Bool :=
  match findCreatedRequest s u.id "level-2" with
  | some r =>
    match r.level2 with
    | some d => if email == d.email then d.isEmailConfirmed else false
    | none => false
  | none => email == u.level2.email

/-- Follows the spec's words (claim C2): the phone confirmation flag resulting
from a level-2 submission, mirroring `specEmailFlagAfter`. -/
def specPhoneFlagAfter (s : Store) (u : User) (phone : String) : Bool :=
  match findCreatedRequest s u.id "level-2" with
  | some r =>
    match r.level2 with
    | some d => if phone == d.phone then d.isPhoneConfirmed else false
    | none => false
  | none => phone == u.level2.phone

/-- A pending level-2 request whose email is already confirmed. -/
def confirmedD : Level2Data :=
  { email := "a@x.com", phone := "+2000", isEmailConfirmed := true,
    isPhoneConfirmed := false, validationComment := none, isValid := false }

/-- A pending level-2 verification request of `sampleUser` carrying
`confirmedD`. -/
def confirmedL2 : VRequest :=
  { id := 10, user := 1, level := "level-2", status := "created", level2 := some confirmedD }

/-- A store holding `sampleUser` and their email-confirmed pending request. -/
def confirmedStore : Store :=
  { users := [sampleUser], signatures := [], tokens := [], checks := [],
    requests := [confirmedL2], mails := [], nextId := 20 }

/-- A stored confirm-email check matching `pendingD`'s email, code "42". -/
def emailCheck : Check :=
  { id := 11, user := 1, type := "confirm-email", payload := "a@x.com", check := "42" }

/-- `level2Store` plus the stored `emailCheck`. -/
def confirmStore : Store :=
  { users := [sampleUser], signatures := [], tokens := [], checks := [emailCheck],
    requests := [pendingL2], mails := [], nextId := 20 }

/-! ### Helper lemmas -/

theorem find?_map_pointwise {α : Type} (f : α → α) (p : α → Bool) :
    ∀ l : List α, (∀ a ∈ l, p (f a) = p a) → (l.map f).find? p = (l.find? p).map f := by
  intro l
  induction l with
  | nil => intro _; rfl
  | cons a t ih =>
    intro h
    have ha := h a (List.mem_cons_self a t)
    by_cases hp : p a
    · rw [List.find?_cons_of_pos _ hp, List.map_cons,
        List.find?_cons_of_pos _ (by rw [ha]; exact hp)]
      simp
    · rw [List.find?_cons_of_neg _ hp, List.map_cons,
        List.find?_cons_of_neg _ (by rw [ha]; exact hp)]
      exact ih (fun x hx => h x (List.mem_cons_of_mem a hx))

/-- `save` never changes which document ids the collection holds. -/
theorem saveRequest_map_id (s : Store) (r : VRequest) :
    (saveRequest s r).requests.map VRequest.id = s.requests.map VRequest.id := by
  unfold saveRequest
  simp only [List.map_map]
  apply List.map_congr_left
  intro q _
  simp only [Function.comp_apply]
  by_cases h : q.id = r.id
  · rw [if_pos (by simpa using h)]
    exact h.symm
  · rw [if_neg (by simpa using h)]

theorem saveRequest_users (s : Store) (r : VRequest) : (saveRequest s r).users = s.users := rfl

theorem saveRequest_checks (s : Store) (r : VRequest) : (saveRequest s r).checks = s.checks := rfl

theorem saveRequest_mails (s : Store) (r : VRequest) : (saveRequest s r).mails = s.mails := rfl

/-- With unique ids, writing a document back touches only the record it came
from, so a scope-preserving edit keeps the one-created-per-scope invariant. -/
theorem uniqueCreated_saveRequest (s : Store) (r r' : VRequest)
    (hnodup : (s.requests.map VRequest.id).Nodup) (hmem : r ∈ s.requests)
    (hid : r'.id = r.id) (hu : r'.user = r.user) (hl : r'.level = r.level)
    (hst : r'.status = r.status) (hInv : uniqueCreated s) :
    uniqueCreated (saveRequest s r') := by
  have key : ∀ q ∈ s.requests,
      (if q.id == r'.id then r' else q).user = q.user ∧
      (if q.id == r'.id then r' else q).level = q.level ∧
      (if q.id == r'.id then r' else q).status = q.status := by
    intro q hq
    by_cases hqe : q.id = r'.id
    · have hqid : q.id = r.id := by rw [hqe, hid]
      have hq_eq : q = r := List.inj_on_of_nodup_map hnodup hq hmem hqid
      subst hq_eq
      rw [if_pos (by simpa using hqe)]
      exact ⟨hu, hl, hst⟩
    · rw [if_neg (by simpa using hqe)]
      exact ⟨rfl, rfl, rfl⟩
  show (s.requests.map (fun q => if q.id == r'.id then r' else q)).Pairwise distinctScope
  rw [List.pairwise_map]
  refine hInv.imp_of_mem ?_
  intro a b ha hb hab
  obtain ⟨ha1, ha2, ha3⟩ := key a ha
  obtain ⟨hb1, hb2, hb3⟩ := key b hb
  unfold distinctScope at hab ⊢
  rw [ha1, ha2, ha3, hb1, hb2, hb3]
  exact hab

/-- After a scope-preserving save, the lookup of the pending request returns
the just-written document. -/
theorem findCreated_saveRequest (s : Store) (uid : Nat) (lvl : String) (r r' : VRequest)
    (hnodup : (s.requests.map VRequest.id).Nodup)
    (hfind : findCreatedRequest s uid lvl = some r)
    (hid : r'.id = r.id) (hu : r'.user = r.user) (hl : r'.level = r.level)
    (hst : r'.status = r.status) :
    findCreatedRequest (saveRequest s r') uid lvl = some r' := by
  have hmem : r ∈ s.requests := List.mem_of_find?_eq_some hfind
  have hpoint : ∀ q ∈ s.requests,
      createdReqP uid lvl (if q.id == r'.id then r' else q) = createdReqP uid lvl q := by
    intro q hq
    by_cases hqe : q.id = r'.id
    · have hqid : q.id = r.id := by rw [hqe, hid]
      have hq_eq : q = r := List.inj_on_of_nodup_map hnodup hq hmem hqid
      subst hq_eq
      rw [if_pos (by simpa using hqe)]
      unfold createdReqP
      rw [hu, hl, hst]
    · rw [if_neg (by simpa using hqe)]
  show (s.requests.map (fun q => if q.id == r'.id then r' else q)).find? (createdReqP uid lvl) = some r'
  rw [find?_map_pointwise _ _ _ hpoint]
  unfold findCreatedRequest at hfind
  rw [hfind]
  show some (if r.id == r'.id then r' else r) = some r'
  rw [if_pos (by simpa using hid.symm)]

/-- Appending a fresh request for an unoccupied scope keeps the invariant. -/
theorem uniqueCreated_append (s : Store) (uid : Nat) (lvl : String) (r : VRequest)
    (hnone : findCreatedRequest s uid lvl = none)
    (hu : r.user = uid) (hl : r.level = lvl) (hInv : uniqueCreated s) :
    (s.requests ++ [r]).Pairwise distinctScope := by
  rw [List.pairwise_append]
  refine ⟨hInv, by simp, ?_⟩
  intro a ha b hb
  rw [List.mem_singleton] at hb
  subst hb
  unfold findCreatedRequest at hnone
  rw [List.find?_eq_none] at hnone
  have hna := hnone a ha
  unfold distinctScope
  rintro ⟨h1, h2, h3, -⟩
  apply hna
  unfold createdReqP
  rw [h1, hu, h2, hl, h3]
  simp

/-- The lookup of a pending request after appending one for its scope. -/
theorem findCreated_append (s : Store) (uid : Nat) (lvl : String) (r : VRequest)
    (hnone : findCreatedRequest s uid lvl = none)
    (hp : createdReqP uid lvl r = true) :
    (s.requests ++ [r]).find? (createdReqP uid lvl) = some r := by
  rw [List.find?_append]
  unfold findCreatedRequest at hnone
  rw [hnone]
  simp [hp]

/-- The confirmation triggers never touch the requests collection. -/
theorem validatePhone_requests (s : Store) (u : User) :
    (validatePhone s u).2.requests = s.requests := by
  unfold validatePhone
  cases h : findCreatedRequest s u.id "level-2" with
  | none => rfl
  | some r =>
    cases h2 : r.level2 with
    | none => simp [h2]
    | some d => by_cases hc : d.isPhoneConfirmed <;> simp [h2, hc]

theorem validateEmail_requests (s : Store) (u : User) :
    (validateEmail s u).2.requests = s.requests := by
  unfold validateEmail
  cases h : findCreatedRequest s u.id "level-2" with
  | none => rfl
  | some r =>
    cases h2 : r.level2 with
    | none => simp [h2]
    | some d => by_cases hc : d.isEmailConfirmed <;> simp [h2, hc]

theorem afterUpsert2_requests (s : Store) (u : User) (d : Level2Data) :
    (afterUpsert2 s u d).2.requests = s.requests := by
  unfold afterUpsert2
  by_cases hp : d.isPhoneConfirmed
  · by_cases he : d.isEmailConfirmed
    · simp [hp, he]
    · simp [hp, he, validateEmail_requests]
  · cases hv : validatePhone s u with
    | mk res s1 =>
      have h1 : s1.requests = s.requests := by
        simpa [hv] using validatePhone_requests s u
      cases res with
      | error e => simp [hp, hv, h1]
      | ok x =>
        by_cases he : d.isEmailConfirmed
        · simp [hp, he, hv, h1]
        · simp [hp, he, hv, validateEmail_requests, h1]

theorem createdReqP_spec (uid : Nat) (lvl : String) (r : VRequest)
    (h : createdReqP uid lvl r = true) :
    r.user = uid ∧ r.level = lvl ∧ r.status = "created" := by
  unfold createdReqP at h
  simp only [Bool.and_eq_true, beq_iff_eq] at h
  exact ⟨h.1.1, h.1.2, h.2⟩

/-- Resetting a (user, type) scope and appending one check for it leaves
exactly that check in the scope. -/
theorem filter_scope_reset (l : List Check) (uid : Nat) (ty : String) (c : Check)
    (hc : checkScopeP uid ty c = true) :
    ((l.filter (fun x => !(checkScopeP uid ty x))) ++ [c]).filter (checkScopeP uid ty) = [c] := by
  rw [List.filter_append]
  have h1 : (l.filter (fun x => !(checkScopeP uid ty x))).filter (checkScopeP uid ty) = [] := by
    rw [List.filter_filter]
    apply List.filter_eq_nil_iff.mpr
    intro a _
    cases checkScopeP uid ty a <;> simp
  rw [h1]
  simp [hc]

/-- Resetting one (user, type) scope does not disturb the checks of a scope
whose members never belong to the reset scope. -/
theorem filter_scope_skip (l : List Check) (uid1 uid2 : Nat) (ty1 ty2 : String)
    (h : ∀ x : Check, checkScopeP uid1 ty1 x = true → checkScopeP uid2 ty2 x = false) :
    (l.filter (fun x => !(checkScopeP uid2 ty2 x))).filter (checkScopeP uid1 ty1) =
      l.filter (checkScopeP uid1 ty1) := by
  rw [List.filter_filter]
  apply List.filter_congr
  intro x _
  cases h1 : checkScopeP uid1 ty1 x
  · simp [h1]
  · simp [h1, h x h1]


/-! ### Computation lemmas for the confirmation triggers -/

theorem validatePhone_no_request (s : Store) (u : User)
    (hf : findCreatedRequest s u.id "level-2" = none) :
    validatePhone s u = (.error (.webError "Illegal state" 401), s) := by
  unfold validatePhone
  rw [hf]

theorem validatePhone_no_level2 (s : Store) (u : User) (r : VRequest)
    (hf : findCreatedRequest s u.id "level-2" = some r) (h2 : r.level2 = none) :
    validatePhone s u = (.error (.webError "Illegal state" 401), s) := by
  unfold validatePhone
  rw [hf]
  simp [h2]

theorem validatePhone_confirmed (s : Store) (u : User) (r : VRequest) (d : Level2Data)
    (hf : findCreatedRequest s u.id "level-2" = some r) (h2 : r.level2 = some d)
    (hc : d.isPhoneConfirmed = true) :
    validatePhone s u = (.error (.webError "Illegal state" 401), s) := by
  unfold validatePhone
  rw [hf]
  simp [h2, hc]

theorem validatePhone_success (s : Store) (u : User) (r : VRequest) (d : Level2Data)
    (hf : findCreatedRequest s u.id "level-2" = some r) (h2 : r.level2 = some d)
    (hc : d.isPhoneConfirmed = false) :
    validatePhone s u =
      (.ok (), { s with
        checks := s.checks.filter (fun c => !(checkScopeP u.id "confirm-phone" c)) ++
          [{ id := s.nextId, user := u.id, type := "confirm-phone",
             payload := d.phone, check := freshCode s.nextId }],
        nextId := s.nextId + 1 }) := by
  unfold validatePhone
  rw [hf]
  simp [h2, hc]

theorem validateEmail_no_request (s : Store) (u : User)
    (hf : findCreatedRequest s u.id "level-2" = none) :
    validateEmail s u = (.error (.webError "Illegal state" 401), s) := by
  unfold validateEmail
  rw [hf]

theorem validateEmail_no_level2 (s : Store) (u : User) (r : VRequest)
    (hf : findCreatedRequest s u.id "level-2" = some r) (h2 : r.level2 = none) :
    validateEmail s u = (.error (.webError "Illegal state" 401), s) := by
  unfold validateEmail
  rw [hf]
  simp [h2]

theorem validateEmail_confirmed (s : Store) (u : User) (r : VRequest) (d : Level2Data)
    (hf : findCreatedRequest s u.id "level-2" = some r) (h2 : r.level2 = some d)
    (hc : d.isEmailConfirmed = true) :
    validateEmail s u = (.error (.webError "Illegal state" 401), s) := by
  unfold validateEmail
  rw [hf]
  simp [h2, hc]

theorem validateEmail_success (s : Store) (u : User) (r : VRequest) (d : Level2Data)
    (hf : findCreatedRequest s u.id "level-2" = some r) (h2 : r.level2 = some d)
    (hc : d.isEmailConfirmed = false) :
    validateEmail s u =
      (.ok (), { s with
        checks := s.checks.filter (fun c => !(checkScopeP u.id "confirm-email" c)) ++
          [{ id := s.nextId, user := u.id, type := "confirm-email",
             payload := d.email, check := freshCode s.nextId }],
        mails := s.mails ++
          [{ toAddr := d.email,
             subject := (confirmTemplate mailBaseURL u.name (freshCode s.nextId)).1,
             html := (confirmTemplate mailBaseURL u.name (freshCode s.nextId)).2 }],
        nextId := s.nextId + 1 }) := by
  unfold validateEmail
  rw [hf]
  simp [h2, hc]

/-- Inversion: a successful phone trigger can only come from a pending
unconfirmed request, and the resulting store is the reset-and-reissue one. -/
theorem validatePhone_ok_inv (s : Store) (u : User) (s1 : Store)
    (h : validatePhone s u = (.ok (), s1)) :
    ∃ r d, findCreatedRequest s u.id "level-2" = some r ∧ r.level2 = some d ∧
      d.isPhoneConfirmed = false ∧
      s1 = { s with
        checks := s.checks.filter (fun c => !(checkScopeP u.id "confirm-phone" c)) ++
          [{ id := s.nextId, user := u.id, type := "confirm-phone",
             payload := d.phone, check := freshCode s.nextId }],
        nextId := s.nextId + 1 } := by
  cases hf : findCreatedRequest s u.id "level-2" with
  | none =>
    rw [validatePhone_no_request s u hf] at h
    simp at h
  | some r =>
    cases h2 : r.level2 with
    | none =>
      rw [validatePhone_no_level2 s u r hf h2] at h
      simp at h
    | some d =>
      cases hc : d.isPhoneConfirmed with
      | true =>
        rw [validatePhone_confirmed s u r d hf h2 hc] at h
        simp at h
      | false =>
        rw [validatePhone_success s u r d hf h2 hc] at h
        refine ⟨r, d, rfl, h2, hc, ?_⟩
        have := congrArg Prod.snd h
        simpa using this.symm

/-- Inversion for the email trigger. -/
theorem validateEmail_ok_inv (s : Store) (u : User) (s1 : Store)
    (h : validateEmail s u = (.ok (), s1)) :
    ∃ r d, findCreatedRequest s u.id "level-2" = some r ∧ r.level2 = some d ∧
      d.isEmailConfirmed = false ∧
      s1 = { s with
        checks := s.checks.filter (fun c => !(checkScopeP u.id "confirm-email" c)) ++
          [{ id := s.nextId, user := u.id, type := "confirm-email",
             payload := d.email, check := freshCode s.nextId }],
        mails := s.mails ++
          [{ toAddr := d.email,
             subject := (confirmTemplate mailBaseURL u.name (freshCode s.nextId)).1,
             html := (confirmTemplate mailBaseURL u.name (freshCode s.nextId)).2 }],
        nextId := s.nextId + 1 } := by
  cases hf : findCreatedRequest s u.id "level-2" with
  | none =>
    rw [validateEmail_no_request s u hf] at h
    simp at h
  | some r =>
    cases h2 : r.level2 with
    | none =>
      rw [validateEmail_no_level2 s u r hf h2] at h
      simp at h
    | some d =>
      cases hc : d.isEmailConfirmed with
      | true =>
        rw [validateEmail_confirmed s u r d hf h2 hc] at h
        simp at h
      | false =>
        rw [validateEmail_success s u r d hf h2 hc] at h
        refine ⟨r, d, rfl, h2, hc, ?_⟩
        have := congrArg Prod.snd h
        simpa using this.symm

theorem findCreatedRequest_spec (s : Store) (uid : Nat) (lvl : String) (r : VRequest)
    (h : findCreatedRequest s uid lvl = some r) :
    r ∈ s.requests ∧ r.user = uid ∧ r.level = lvl ∧ r.status = "created" := by
  unfold findCreatedRequest at h
  exact ⟨List.mem_of_find?_eq_some h, createdReqP_spec uid lvl r (List.find?_some h)⟩

/-! ### Claims -/

/-- Claim C7: requireSignature is idempotent — called twice with the same
(type, value) from a store holding no such signature, it returns the signature
bound to the same account both times, and across the two calls exactly one
signature and exactly one account record are created (the second call creates
nothing: it returns the first call's store unchanged). -/
theorem claim_C7 (s : Store) (type value : String)
    (hnone : s.signatures.find? (fun g => g.value == value && g.type == type) = none)
    (hfresh : ∀ g ∈ s.signatures, g.id < s.nextId) :
    ∃ g1 s1, requireSignature s type value = (.ok g1, s1) ∧
      requireSignature s1 type value = (.ok g1, s1) ∧
      s1.users.length = s.users.length + 1 ∧
      s1.signatures.length = s.signatures.length + 1 ∧
      g1.user = s.nextId ∧ ∃ usr ∈ s1.users, usr.id = g1.user := by
  have hfind2 : (s.signatures ++ [⟨s.nextId + 1, s.nextId, type, value⟩] : List Signature).find?
      (fun x => x.id == s.nextId + 1) = some ⟨s.nextId + 1, s.nextId, type, value⟩ := by
    rw [List.find?_append]
    have hl : s.signatures.find? (fun x => x.id == s.nextId + 1) = none := by
      rw [List.find?_eq_none]
      intro x hx
      have := hfresh x hx
      simp only [beq_iff_eq]
      omega
    rw [hl]
    simp
  have hrun : requireSignature s type value =
      (.ok ⟨s.nextId + 1, s.nextId, type, value⟩,
       { s with users := s.users ++ [⟨s.nextId, type ++ ":" ++ value, ⟨"", ""⟩⟩],
                signatures := s.signatures ++ [⟨s.nextId + 1, s.nextId, type, value⟩],
                nextId := s.nextId + 2 }) := by
    unfold requireSignature
    rw [hnone]
    dsimp only
    rw [hfind2]
  refine ⟨⟨s.nextId + 1, s.nextId, type, value⟩,
    { s with users := s.users ++ [⟨s.nextId, type ++ ":" ++ value, ⟨"", ""⟩⟩],
             signatures := s.signatures ++ [⟨s.nextId + 1, s.nextId, type, value⟩],
             nextId := s.nextId + 2 }, hrun, ?_, by simp, by simp, rfl, ?_⟩
  · unfold requireSignature
    dsimp only
    rw [List.find?_append, hnone]
    simp
  · exact ⟨⟨s.nextId, type ++ ":" ++ value, ⟨"", ""⟩⟩, by simp, rfl⟩

/-- Witness for C7 at the empty store. -/
theorem claim_C7_witness :
    ∃ g1 s1, requireSignature store0 "ethereum-address" "0xab" = (.ok g1, s1) ∧
      requireSignature s1 "ethereum-address" "0xab" = (.ok g1, s1) ∧
      s1.users.length = store0.users.length + 1 ∧
      s1.signatures.length = store0.signatures.length + 1 ∧
      g1.user = store0.nextId ∧ ∃ usr ∈ s1.users, usr.id = g1.user :=
  claim_C7 store0 "ethereum-address" "0xab" (by decide) (by decide)

/-- Claim C8, amended: selectPerson lowercases the address, looks the
ethereum-address signature up and returns the bound account merged with the
matched value; with no matching signature it fails by dereferencing the null
lookup result (a TypeError), not with a structured NotFound error. -/
theorem claim_C8 (s : Store) (address : String) :
    (∀ g, s.signatures.find? (fun x => x.value == jsToLower address && x.type == "ethereum-address") = some g →
       ∀ usr, s.users.find? (fun x => x.id == g.user) = some usr →
         selectPerson s address = .ok { user := usr, address := g.value }) ∧
    (s.signatures.find? (fun x => x.value == jsToLower address && x.type == "ethereum-address") = none →
       selectPerson s address = .error .typeError) := by
  constructor
  · intro g hg usr husr
    unfold selectPerson
    rw [hg]
    dsimp only
    rw [husr]
  · intro h
    unfold selectPerson
    rw [h]

/-- Counterexample to C8 as stated: on a store with no signatures the failure
is a TypeError (null dereference), not a NotFound error. -/
theorem claim_C8_counterexample :
    selectPerson emptyStore "0xAB" = .error .typeError ∧
    SvcError.typeError ≠ SvcError.notFound :=
  ⟨rfl, by decide⟩

/-- Witness for C8 on a store holding a matching lower-cased signature. -/
theorem claim_C8_witness :
    selectPerson sigStore "0xAB" = .ok { user := sampleUser, address := sampleSig.value } :=
  (claim_C8 sigStore "0xAB").1 sampleSig (by decide) sampleUser (by decide)

/-- Claim C9, amended: removeToken on an existing token value deletes exactly
that token and returns the deleted record; on a missing token value it fails
by calling remove() on the null lookup result (a TypeError), not with a
structured NotFound error, and deletes nothing — the store is unchanged. -/
theorem claim_C9 (s : Store) (tv : String)
    (hnodup : (s.tokens.map Token.id).Nodup) :
    (∀ t, s.tokens.find? (fun x => x.token == tv) = some t →
       removeToken s tv = (.ok t, { s with tokens := s.tokens.filter (fun x => !(x.id == t.id)) }) ∧
       t ∉ (removeToken s tv).2.tokens ∧
       ∀ x ∈ s.tokens, x ≠ t → x ∈ (removeToken s tv).2.tokens) ∧
    (s.tokens.find? (fun x => x.token == tv) = none →
       removeToken s tv = (.error .typeError, s)) := by
  constructor
  · intro t ht
    have hmem : t ∈ s.tokens := List.mem_of_find?_eq_some ht
    have hrun : removeToken s tv =
        (.ok t, { s with tokens := s.tokens.filter (fun x => !(x.id == t.id)) }) := by
      unfold removeToken
      rw [ht]
    refine ⟨hrun, ?_, ?_⟩
    · rw [hrun]
      simp [List.mem_filter]
    · intro x hx hxt
      rw [hrun]
      simp only [List.mem_filter]
      refine ⟨hx, ?_⟩
      have hne : x.id ≠ t.id := fun he => hxt (List.inj_on_of_nodup_map hnodup hx hmem he)
      simp [hne]
  · intro h
    unfold removeToken
    rw [h]

/-- Counterexample to C9 as stated: revoking from a store with no tokens fails
with a TypeError (null dereference), not a NotFound error; the store is
returned unchanged. -/
theorem claim_C9_counterexample :
    removeToken emptyStore "nope" = (.error .typeError, emptyStore) ∧
    SvcError.typeError ≠ SvcError.notFound :=
  ⟨rfl, by decide⟩

/-- Witness for C9 on a store holding the token being revoked. -/
theorem claim_C9_witness :
    removeToken tokenStore "tok-1" =
      (.ok sampleToken,
       { tokenStore with tokens := tokenStore.tokens.filter (fun x => !(x.id == sampleToken.id)) }) :=
  (((claim_C9 tokenStore "tok-1" (by decide)).1 sampleToken (by decide))).1

/-- Claim C3: validatePhone raises IllegalState exactly when there is no
pending level-2 request for the account or its phone is already confirmed; on
success it removes every confirm-phone check of the account and creates
exactly one new check carrying the pending phone value as payload, so after
two consecutive triggers only the most recently issued check (and hence code)
remains able to confirm; validateEmail behaves identically for
confirm-email. -/
theorem claim_C3 (s : Store) (u : User)
    (hwf2 : ∀ r ∈ s.requests, r.level = "level-2" → r.status = "created" → r.level2 ≠ none) :
    ((∃ e, (validatePhone s u).1 = .error e) ↔
       (findCreatedRequest s u.id "level-2" = none ∨
        ∃ r d, findCreatedRequest s u.id "level-2" = some r ∧ r.level2 = some d ∧
          d.isPhoneConfirmed = true)) ∧
    (∀ e, (validatePhone s u).1 = .error e → e = .webError "Illegal state" 401) ∧
    (∀ r d, findCreatedRequest s u.id "level-2" = some r → r.level2 = some d →
       d.isPhoneConfirmed = false →
       validatePhone s u =
         (.ok (), { s with
           checks := s.checks.filter (fun c => !(checkScopeP u.id "confirm-phone" c)) ++
             [{ id := s.nextId, user := u.id, type := "confirm-phone",
                payload := d.phone, check := freshCode s.nextId }],
           nextId := s.nextId + 1 }) ∧
       checksFor (validatePhone s u).2 u.id "confirm-phone" =
         [{ id := s.nextId, user := u.id, type := "confirm-phone",
            payload := d.phone, check := freshCode s.nextId }]) ∧
    (∀ s1 s2, validatePhone s u = (.ok (), s1) → validatePhone s1 u = (.ok (), s2) →
       ∃ c1 c2, checksFor s1 u.id "confirm-phone" = [c1] ∧
         checksFor s2 u.id "confirm-phone" = [c2] ∧ c1 ≠ c2 ∧ c2.id = s1.nextId) ∧
    ((∃ e, (validateEmail s u).1 = .error e) ↔
       (findCreatedRequest s u.id "level-2" = none ∨
        ∃ r d, findCreatedRequest s u.id "level-2" = some r ∧ r.level2 = some d ∧
          d.isEmailConfirmed = true)) ∧
    (∀ e, (validateEmail s u).1 = .error e → e = .webError "Illegal state" 401) ∧
    (∀ r d, findCreatedRequest s u.id "level-2" = some r → r.level2 = some d →
       d.isEmailConfirmed = false →
       checksFor (validateEmail s u).2 u.id "confirm-email" =
         [{ id := s.nextId, user := u.id, type := "confirm-email",
            payload := d.email, check := freshCode s.nextId }]) ∧
    (∀ s1 s2, validateEmail s u = (.ok (), s1) → validateEmail s1 u = (.ok (), s2) →
       ∃ c1 c2, checksFor s1 u.id "confirm-email" = [c1] ∧
         checksFor s2 u.id "confirm-email" = [c2] ∧ c1 ≠ c2 ∧ c2.id = s1.nextId) := by
  refine ⟨?_, ?_, ?_, ?_, ?_, ?_, ?_, ?_⟩
  · constructor
    · rintro ⟨e, he⟩
      cases hf : findCreatedRequest s u.id "level-2" with
      | none => exact Or.inl rfl
      | some r =>
        obtain ⟨hmem, -, hlv, hst⟩ := findCreatedRequest_spec s u.id "level-2" r hf
        obtain ⟨d, h2⟩ := Option.ne_none_iff_exists'.mp (hwf2 r hmem hlv hst)
        cases hc : d.isPhoneConfirmed with
        | true => exact Or.inr ⟨r, d, rfl, h2, hc⟩
        | false =>
          rw [validatePhone_success s u r d hf h2 hc] at he
          simp at he
    · rintro (hf | ⟨r, d, hf, h2, hc⟩)
      · exact ⟨_, by rw [validatePhone_no_request s u hf]⟩
      · exact ⟨_, by rw [validatePhone_confirmed s u r d hf h2 hc]⟩
  · intro e he
    cases hf : findCreatedRequest s u.id "level-2" with
    | none =>
      rw [validatePhone_no_request s u hf] at he
      simp at he
      exact he.symm
    | some r =>
      obtain ⟨hmem, -, hlv, hst⟩ := findCreatedRequest_spec s u.id "level-2" r hf
      obtain ⟨d, h2⟩ := Option.ne_none_iff_exists'.mp (hwf2 r hmem hlv hst)
      cases hc : d.isPhoneConfirmed with
      | true =>
        rw [validatePhone_confirmed s u r d hf h2 hc] at he
        simp at he
        exact he.symm
      | false =>
        rw [validatePhone_success s u r d hf h2 hc] at he
        simp at he
  · intro r d hf h2 hc
    have hrun := validatePhone_success s u r d hf h2 hc
    refine ⟨hrun, ?_⟩
    rw [hrun]
    exact filter_scope_reset s.checks u.id "confirm-phone" _ (by simp [checkScopeP])
  · intro s1 s2 h1 h2'
    obtain ⟨r, d, hf, hl2, hc, hs1⟩ := validatePhone_ok_inv s u s1 h1
    obtain ⟨r', d', hf', hl2', hc', hs2⟩ := validatePhone_ok_inv s1 u s2 h2'
    refine ⟨⟨s.nextId, u.id, "confirm-phone", d.phone, freshCode s.nextId⟩,
            ⟨s1.nextId, u.id, "confirm-phone", d'.phone, freshCode s1.nextId⟩, ?_, ?_, ?_, rfl⟩
    · rw [hs1]
      exact filter_scope_reset s.checks u.id "confirm-phone" _ (by simp [checkScopeP])
    · rw [hs2]
      exact filter_scope_reset s1.checks u.id "confirm-phone" _ (by simp [checkScopeP])
    · intro habs
      have hid := congrArg Check.id habs
      simp only [] at hid
      rw [hs1] at hid
      simp at hid
  · constructor
    · rintro ⟨e, he⟩
      cases hf : findCreatedRequest s u.id "level-2" with
      | none => exact Or.inl rfl
      | some r =>
        obtain ⟨hmem, -, hlv, hst⟩ := findCreatedRequest_spec s u.id "level-2" r hf
        obtain ⟨d, h2⟩ := Option.ne_none_iff_exists'.mp (hwf2 r hmem hlv hst)
        cases hc : d.isEmailConfirmed with
        | true => exact Or.inr ⟨r, d, rfl, h2, hc⟩
        | false =>
          rw [validateEmail_success s u r d hf h2 hc] at he
          simp at he
    · rintro (hf | ⟨r, d, hf, h2, hc⟩)
      · exact ⟨_, by rw [validateEmail_no_request s u hf]⟩
      · exact ⟨_, by rw [validateEmail_confirmed s u r d hf h2 hc]⟩
  · intro e he
    cases hf : findCreatedRequest s u.id "level-2" with
    | none =>
      rw [validateEmail_no_request s u hf] at he
      simp at he
      exact he.symm
    | some r =>
      obtain ⟨hmem, -, hlv, hst⟩ := findCreatedRequest_spec s u.id "level-2" r hf
      obtain ⟨d, h2⟩ := Option.ne_none_iff_exists'.mp (hwf2 r hmem hlv hst)
      cases hc : d.isEmailConfirmed with
      | true =>
        rw [validateEmail_confirmed s u r d hf h2 hc] at he
        simp at he
        exact he.symm
      | false =>
        rw [validateEmail_success s u r d hf h2 hc] at he
        simp at he
  · intro r d hf h2 hc
    rw [validateEmail_success s u r d hf h2 hc]
    exact filter_scope_reset s.checks u.id "confirm-email" _ (by simp [checkScopeP])
  · intro s1 s2 h1 h2'
    obtain ⟨r, d, hf, hl2, hc, hs1⟩ := validateEmail_ok_inv s u s1 h1
    obtain ⟨r', d', hf', hl2', hc', hs2⟩ := validateEmail_ok_inv s1 u s2 h2'
    refine ⟨⟨s.nextId, u.id, "confirm-email", d.email, freshCode s.nextId⟩,
            ⟨s1.nextId, u.id, "confirm-email", d'.email, freshCode s1.nextId⟩, ?_, ?_, ?_, rfl⟩
    · rw [hs1]
      exact filter_scope_reset s.checks u.id "confirm-email" _ (by simp [checkScopeP])
    · rw [hs2]
      exact filter_scope_reset s1.checks u.id "confirm-email" _ (by simp [checkScopeP])
    · intro habs
      have hid := congrArg Check.id habs
      simp only [] at hid
      rw [hs1] at hid
      simp at hid

theorem checkScopeP_spec (uid : Nat) (ty : String) (c : Check)
    (h : checkScopeP uid ty c = true) : c.user = uid ∧ c.type = ty := by
  unfold checkScopeP at h
  simp only [Bool.and_eq_true, beq_iff_eq] at h
  exact h

theorem checkMatchP_spec (uid : Nat) (ty payload code : String) (c : Check)
    (h : checkMatchP uid ty payload code c = true) :
    c.user = uid ∧ c.type = ty ∧ c.payload = payload ∧ c.check = code := by
  unfold checkMatchP at h
  simp only [Bool.and_eq_true, beq_iff_eq] at h
  exact ⟨h.1.1.1, h.1.1.2, h.1.2, h.2⟩

/-- Removing one check by id does not disturb a scope the check does not
belong to (given unique ids). -/
theorem checksFor_remove_other (l : List Check) (uid1 : Nat) (ty1 : String) (c : Check)
    (hnodup : (l.map Check.id).Nodup) (hcmem : c ∈ l) (hty : c.type ≠ ty1) :
    (l.filter (fun x => !(x.id == c.id))).filter (checkScopeP uid1 ty1) =
      l.filter (checkScopeP uid1 ty1) := by
  rw [List.filter_filter]
  apply List.filter_congr
  intro x hx
  cases h1 : checkScopeP uid1 ty1 x
  · simp [h1]
  · have hxty : x.type = ty1 := (checkScopeP_spec uid1 ty1 x h1).2
    have hxc : x ≠ c := fun he => hty (he ▸ hxty)
    have hxid : x.id ≠ c.id := fun he => hxc (List.inj_on_of_nodup_map hnodup hx hcmem he)
    simp [h1, hxid]

/-! ### Computation lemmas for the two confirm phases -/

theorem confirmEmailPhase_falsy (s : Store) (u : User) (r : VRequest)
    (code : Option String) (h : truthy code = false) :
    confirmEmailPhase s u r code = .ok (false, false, r, s) := by
  unfold confirmEmailPhase
  rw [h]
  rfl

theorem confirmEmailPhase_nohit (s : Store) (u : User) (r : VRequest) (d : Level2Data)
    (code : Option String) (h2 : r.level2 = some d)
    (hfind : s.checks.find? (checkMatchP u.id "confirm-email" d.email (code.getD "")) = none) :
    confirmEmailPhase s u r code = .ok (truthy code, false, r, s) := by
  cases htc : truthy code with
  | false => rw [confirmEmailPhase_falsy s u r code htc]
  | true =>
    unfold confirmEmailPhase
    rw [htc]
    simp [h2, hfind]

theorem confirmEmailPhase_hit (s : Store) (u : User) (r : VRequest) (d : Level2Data)
    (code : Option String) (c : Check) (htc : truthy code = true) (h2 : r.level2 = some d)
    (hfind : s.checks.find? (checkMatchP u.id "confirm-email" d.email (code.getD "")) = some c) :
    confirmEmailPhase s u r code =
      .ok (true, true, { r with level2 := some { d with isEmailConfirmed := true } },
           { s with checks := s.checks.filter (fun x => !(x.id == c.id)) }) := by
  unfold confirmEmailPhase
  rw [htc]
  simp [h2, hfind]

theorem confirmPhonePhase_falsy (s : Store) (u : User) (r : VRequest)
    (code : Option String) (h : truthy code = false) :
    confirmPhonePhase s u r code = .ok (false, false, r, s) := by
  unfold confirmPhonePhase
  rw [h]
  rfl

theorem confirmPhonePhase_nohit (s : Store) (u : User) (r : VRequest) (d : Level2Data)
    (code : Option String) (h2 : r.level2 = some d)
    (hfind : s.checks.find? (checkMatchP u.id "confirm-phone" d.phone (code.getD "")) = none) :
    confirmPhonePhase s u r code = .ok (truthy code, false, r, s) := by
  cases htc : truthy code with
  | false => rw [confirmPhonePhase_falsy s u r code htc]
  | true =>
    unfold confirmPhonePhase
    rw [htc]
    simp [h2, hfind]

theorem confirmPhonePhase_hit (s : Store) (u : User) (r : VRequest) (d : Level2Data)
    (code : Option String) (c : Check) (htc : truthy code = true) (h2 : r.level2 = some d)
    (hfind : s.checks.find? (checkMatchP u.id "confirm-phone" d.phone (code.getD "")) = some c) :
    confirmPhonePhase s u r code =
      .ok (true, true, { r with level2 := some { d with isPhoneConfirmed := true } },
           { s with checks := s.checks.filter (fun x => !(x.id == c.id)) }) := by
  unfold confirmPhonePhase
  rw [htc]
  simp [h2, hfind]

/-- Assembling `confirmLevel2Request` from the outcomes of its two phases. -/
theorem confirmLevel2Request_eq (s : Store) (u : User) (m : ConfirmationRequestLevel2Model)
    (r : VRequest) (hf : findCreatedRequest s u.id "level-2" = some r)
    (et ev : Bool) (r1 : VRequest) (s1 : Store)
    (he : confirmEmailPhase s u r m.emailCode = .ok (et, ev, r1, s1))
    (pt pv : Bool) (r2 : VRequest) (s2 : Store)
    (hp : confirmPhonePhase s1 u r1 m.phoneCode = .ok (pt, pv, r2, s2)) :
    confirmLevel2Request s u m =
      (.ok { isEmailTried := et, isEmailVerified := ev,
             isPhoneTried := pt, isPhoneVerified := pv },
       if pv || ev then saveRequest s2 r2 else s2) := by
  unfold confirmLevel2Request
  rw [hf]
  simp [he, hp]

/-- Witness for C3: a successful phone trigger on the sample pending
request. -/
theorem claim_C3_witness :
    validatePhone level2Store sampleUser =
      (.ok (), { level2Store with
        checks := level2Store.checks.filter (fun c => !(checkScopeP sampleUser.id "confirm-phone" c)) ++
          [{ id := level2Store.nextId, user := sampleUser.id, type := "confirm-phone",
             payload := pendingD.phone, check := freshCode level2Store.nextId }],
        nextId := level2Store.nextId + 1 }) :=
  (((claim_C3 level2Store sampleUser (by decide)).2.2.1 pendingL2 pendingD (by decide)
    rfl rfl)).1

/-- Claim C4: with a pending level-2 request and a stored confirm-email check
matching the pending email and the submitted code, confirmLevel2Request with
the correct emailCode and no phoneCode reports the email attempt as verified,
sets isEmailConfirmed on the request, persists it, and removes the check, so
the same code fails on a second call. -/
theorem claim_C4 (s : Store) (u : User) (r : VRequest) (d : Level2Data) (c : Check) (code : String)
    (hnodup : (s.requests.map VRequest.id).Nodup)
    (hfind : findCreatedRequest s u.id "level-2" = some r)
    (hl2 : r.level2 = some d)
    (hcode : code ≠ "")
    (hcfind : s.checks.find? (checkMatchP u.id "confirm-email" d.email code) = some c)
    (huniq : ∀ x ∈ s.checks, checkMatchP u.id "confirm-email" d.email code x = true → x = c) :
    ∃ s', confirmLevel2Request s u ⟨some code, none⟩ =
        (.ok { isEmailTried := true, isEmailVerified := true,
               isPhoneTried := false, isPhoneVerified := false }, s') ∧
      s'.checks = s.checks.filter (fun x => !(x.id == c.id)) ∧
      c ∉ s'.checks ∧
      findCreatedRequest s' u.id "level-2" =
        some { r with level2 := some { d with isEmailConfirmed := true } } ∧
      (confirmLevel2Request s' u ⟨some code, none⟩).1 =
        .ok { isEmailTried := true, isEmailVerified := false,
              isPhoneTried := false, isPhoneVerified := false } := by
  have htc : truthy (some code) = true := by simp [truthy, hcode]
  have hhit := confirmEmailPhase_hit s u r d (some code) c htc hl2 hcfind
  have hA := confirmPhonePhase_falsy
    { s with checks := s.checks.filter (fun x => !(x.id == c.id)) } u
    { r with level2 := some { d with isEmailConfirmed := true } } none rfl
  have hassm := confirmLevel2Request_eq s u ⟨some code, none⟩ r hfind
    true true { r with level2 := some { d with isEmailConfirmed := true } }
    { s with checks := s.checks.filter (fun x => !(x.id == c.id)) } hhit
    false false { r with level2 := some { d with isEmailConfirmed := true } }
    { s with checks := s.checks.filter (fun x => !(x.id == c.id)) } hA
  refine ⟨saveRequest { s with checks := s.checks.filter (fun x => !(x.id == c.id)) }
    { r with level2 := some { d with isEmailConfirmed := true } }, hassm, rfl, ?_, ?_, ?_⟩
  · simp [saveRequest, List.mem_filter]
  · exact findCreated_saveRequest
      { s with checks := s.checks.filter (fun x => !(x.id == c.id)) } u.id "level-2" r
      { r with level2 := some { d with isEmailConfirmed := true } } hnodup hfind rfl rfl rfl rfl
  · have hfind2 := findCreated_saveRequest
      { s with checks := s.checks.filter (fun x => !(x.id == c.id)) } u.id "level-2" r
      { r with level2 := some { d with isEmailConfirmed := true } } hnodup hfind rfl rfl rfl rfl
    have hnone2 : (saveRequest { s with checks := s.checks.filter (fun x => !(x.id == c.id)) }
        { r with level2 := some { d with isEmailConfirmed := true } }).checks.find?
        (checkMatchP u.id "confirm-email" d.email code) = none := by
      rw [List.find?_eq_none]
      intro x hx
      rw [saveRequest_checks] at hx
      simp only [List.mem_filter] at hx
      intro habs
      have hxc : x = c := huniq x hx.1 habs
      subst hxc
      simp at hx
    have hem := confirmEmailPhase_nohit
      (saveRequest { s with checks := s.checks.filter (fun x => !(x.id == c.id)) }
        { r with level2 := some { d with isEmailConfirmed := true } }) u
      { r with level2 := some { d with isEmailConfirmed := true } }
      { d with isEmailConfirmed := true } (some code) rfl hnone2
    have hph := confirmPhonePhase_falsy
      (saveRequest { s with checks := s.checks.filter (fun x => !(x.id == c.id)) }
        { r with level2 := some { d with isEmailConfirmed := true } }) u
      { r with level2 := some { d with isEmailConfirmed := true } } none rfl
    have hassm2 := confirmLevel2Request_eq
      (saveRequest { s with checks := s.checks.filter (fun x => !(x.id == c.id)) }
        { r with level2 := some { d with isEmailConfirmed := true } }) u
      ⟨some code, none⟩ { r with level2 := some { d with isEmailConfirmed := true } } hfind2
      (truthy (some code)) false { r with level2 := some { d with isEmailConfirmed := true } } _ hem
      false false { r with level2 := some { d with isEmailConfirmed := true } } _ hph
    rw [hassm2]
    simp [htc]

/-- Witness for C4: the sample store, pending request and stored check. -/
theorem claim_C4_witness :
    ∃ s', confirmLevel2Request confirmStore sampleUser ⟨some "42", none⟩ =
        (.ok { isEmailTried := true, isEmailVerified := true,
               isPhoneTried := false, isPhoneVerified := false }, s') ∧
      s'.checks = confirmStore.checks.filter (fun x => !(x.id == emailCheck.id)) ∧
      emailCheck ∉ s'.checks ∧
      findCreatedRequest s' sampleUser.id "level-2" =
        some { pendingL2 with level2 := some { pendingD with isEmailConfirmed := true } } ∧
      (confirmLevel2Request s' sampleUser ⟨some "42", none⟩).1 =
        .ok { isEmailTried := true, isEmailVerified := false,
              isPhoneTried := false, isPhoneVerified := false } :=
  claim_C4 confirmStore sampleUser pendingL2 pendingD emailCheck "42"
    (by decide) (by decide) rfl (by decide) (by decide) (by decide)

/-- Claim C5: with a pending level-2 request and submitted codes that match no
stored check, confirmLevel2Request reports the attempted channels as tried but
not verified, removes no check and performs no save — the store is returned
unchanged. -/
theorem claim_C5 (s : Store) (u : User) (m : ConfirmationRequestLevel2Model) (r : VRequest)
    (hfind : findCreatedRequest s u.id "level-2" = some r)
    (hwf2 : ∀ q ∈ s.requests, q.level = "level-2" → q.status = "created" → q.level2 ≠ none)
    (hemail : ∀ d, r.level2 = some d →
       s.checks.find? (checkMatchP u.id "confirm-email" d.email (m.emailCode.getD "")) = none)
    (hphone : ∀ d, r.level2 = some d →
       s.checks.find? (checkMatchP u.id "confirm-phone" d.phone (m.phoneCode.getD "")) = none) :
    confirmLevel2Request s u m =
      (.ok { isEmailTried := truthy m.emailCode, isEmailVerified := false,
             isPhoneTried := truthy m.phoneCode, isPhoneVerified := false }, s) := by
  obtain ⟨hmem, -, hlv, hst⟩ := findCreatedRequest_spec s u.id "level-2" r hfind
  obtain ⟨d, h2⟩ := Option.ne_none_iff_exists'.mp (hwf2 r hmem hlv hst)
  have he := confirmEmailPhase_nohit s u r d m.emailCode h2 (hemail d h2)
  have hp := confirmPhonePhase_nohit s u r d m.phoneCode h2 (hphone d h2)
  have hq := confirmLevel2Request_eq s u m r hfind
    (truthy m.emailCode) false r s he (truthy m.phoneCode) false r s hp
  simpa using hq

/-- Witness for C5: a wrong code against the sample store with no checks. -/
theorem claim_C5_witness :
    confirmLevel2Request level2Store sampleUser ⟨some "99", none⟩ =
      (.ok { isEmailTried := true, isEmailVerified := false,
             isPhoneTried := false, isPhoneVerified := false }, level2Store) :=
  claim_C5 level2Store sampleUser ⟨some "99", none⟩ pendingL2
    (by decide) (by decide) (by decide) (by decide)

/-- Claim C10: confirmLevel2Request treats an absent or empty submitted code
as not attempted — the corresponding Tried flag is false and the checks of
that purpose are untouched; with both codes absent or empty it returns all
four booleans false and leaves the store unchanged. -/
theorem claim_C10 (s : Store) (u : User) (m : ConfirmationRequestLevel2Model) (r : VRequest)
    (hfind : findCreatedRequest s u.id "level-2" = some r)
    (hwf2 : ∀ q ∈ s.requests, q.level = "level-2" → q.status = "created" → q.level2 ≠ none)
    (hcnodup : (s.checks.map Check.id).Nodup) :
    (truthy m.emailCode = false →
       ∃ res s', confirmLevel2Request s u m = (.ok res, s') ∧
         res.isEmailTried = false ∧ res.isEmailVerified = false ∧
         checksFor s' u.id "confirm-email" = checksFor s u.id "confirm-email") ∧
    (truthy m.phoneCode = false →
       ∃ res s', confirmLevel2Request s u m = (.ok res, s') ∧
         res.isPhoneTried = false ∧ res.isPhoneVerified = false ∧
         checksFor s' u.id "confirm-phone" = checksFor s u.id "confirm-phone") ∧
    (truthy m.emailCode = false → truthy m.phoneCode = false →
       confirmLevel2Request s u m =
         (.ok { isEmailTried := false, isEmailVerified := false,
                isPhoneTried := false, isPhoneVerified := false }, s)) := by
  obtain ⟨hmem, -, hlv, hst⟩ := findCreatedRequest_spec s u.id "level-2" r hfind
  obtain ⟨d, h2⟩ := Option.ne_none_iff_exists'.mp (hwf2 r hmem hlv hst)
  refine ⟨?_, ?_, ?_⟩
  · intro hef
    have he := confirmEmailPhase_falsy s u r m.emailCode hef
    cases hpf : s.checks.find? (checkMatchP u.id "confirm-phone" d.phone (m.phoneCode.getD "")) with
    | none =>
      have hp := confirmPhonePhase_nohit s u r d m.phoneCode h2 hpf
      have hq := confirmLevel2Request_eq s u m r hfind false false r s he
        (truthy m.phoneCode) false r s hp
      exact ⟨_, s, by simpa using hq, rfl, rfl, rfl⟩
    | some c =>
      cases htp : truthy m.phoneCode with
      | false =>
        have hp := confirmPhonePhase_falsy s u r m.phoneCode htp
        have hq := confirmLevel2Request_eq s u m r hfind false false r s he false false r s hp
        exact ⟨_, s, by simpa using hq, rfl, rfl, rfl⟩
      | true =>
        have hp := confirmPhonePhase_hit s u r d m.phoneCode c htp h2 hpf
        have hq := confirmLevel2Request_eq s u m r hfind false false r s he
          true true { r with level2 := some { d with isPhoneConfirmed := true } }
          { s with checks := s.checks.filter (fun x => !(x.id == c.id)) } hp
        refine ⟨_, _, by simpa using hq, rfl, rfl, ?_⟩
        have hcmem : c ∈ s.checks := List.mem_of_find?_eq_some hpf
        have hcty : c.type = "confirm-phone" :=
          (checkMatchP_spec _ _ _ _ c (List.find?_some hpf)).2.1
        show ((s.checks.filter (fun x => !(x.id == c.id))).filter
          (checkScopeP u.id "confirm-email")) = s.checks.filter (checkScopeP u.id "confirm-email")
        exact checksFor_remove_other s.checks u.id "confirm-email" c hcnodup hcmem
          (by rw [hcty]; decide)
  · intro hpf2
    have hplast : ∀ (s1 : Store) (r1 : VRequest),
        confirmPhonePhase s1 u r1 m.phoneCode = .ok (false, false, r1, s1) :=
      fun s1 r1 => confirmPhonePhase_falsy s1 u r1 m.phoneCode hpf2
    cases hef : s.checks.find? (checkMatchP u.id "confirm-email" d.email (m.emailCode.getD "")) with
    | none =>
      have he := confirmEmailPhase_nohit s u r d m.emailCode h2 hef
      have hq := confirmLevel2Request_eq s u m r hfind (truthy m.emailCode) false r s he
        false false r s (hplast s r)
      exact ⟨_, s, by simpa using hq, rfl, rfl, rfl⟩
    | some c =>
      cases hte : truthy m.emailCode with
      | false =>
        have he := confirmEmailPhase_falsy s u r m.emailCode hte
        have hq := confirmLevel2Request_eq s u m r hfind false false r s he
          false false r s (hplast s r)
        exact ⟨_, s, by simpa using hq, rfl, rfl, rfl⟩
      | true =>
        have he := confirmEmailPhase_hit s u r d m.emailCode c hte h2 hef
        have hq := confirmLevel2Request_eq s u m r hfind true true
          { r with level2 := some { d with isEmailConfirmed := true } }
          { s with checks := s.checks.filter (fun x => !(x.id == c.id)) } he
          false false { r with level2 := some { d with isEmailConfirmed := true } }
          { s with checks := s.checks.filter (fun x => !(x.id == c.id)) }
          (hplast _ _)
        refine ⟨_, _, by simpa using hq, rfl, rfl, ?_⟩
        have hcmem : c ∈ s.checks := List.mem_of_find?_eq_some hef
        have hcty : c.type = "confirm-email" :=
          (checkMatchP_spec _ _ _ _ c (List.find?_some hef)).2.1
        show ((s.checks.filter (fun x => !(x.id == c.id))).filter
          (checkScopeP u.id "confirm-phone")) = s.checks.filter (checkScopeP u.id "confirm-phone")
        exact checksFor_remove_other s.checks u.id "confirm-phone" c hcnodup hcmem
          (by rw [hcty]; decide)
  · intro hef hpf2
    have he := confirmEmailPhase_falsy s u r m.emailCode hef
    have hp := confirmPhonePhase_falsy s u r m.phoneCode hpf2
    have hq := confirmLevel2Request_eq s u m r hfind false false r s he false false r s hp
    simpa using hq

/-- Witness for C10: both codes absent on the sample store. -/
theorem claim_C10_witness :
    confirmLevel2Request confirmStore sampleUser ⟨none, none⟩ =
      (.ok { isEmailTried := false, isEmailVerified := false,
             isPhoneTried := false, isPhoneVerified := false }, confirmStore) :=
  (claim_C10 confirmStore sampleUser ⟨none, none⟩ pendingL2
    (by decide) (by decide) (by decide)).2.2 rfl rfl

theorem findCreatedRequest_congr (s s' : Store) (h : s'.requests = s.requests)
    (uid : Nat) (lvl : String) :
    findCreatedRequest s' uid lvl = findCreatedRequest s uid lvl := by
  unfold findCreatedRequest
  rw [h]

theorem checksFor_congr (s s' : Store) (h : s'.checks = s.checks) (uid : Nat) (ty : String) :
    checksFor s' uid ty = checksFor s uid ty := by
  unfold checksFor
  rw [h]

/-- The update branch of `upsertLevel2Request`. -/
theorem upsertLevel2_update (s : Store) (u : User) (m : VerificationRequestLevel2Model)
    (r : VRequest) (d : Level2Data)
    (hf : findCreatedRequest s u.id "level-2" = some r) (h2 : r.level2 = some d) :
    upsertLevel2Request s u m =
      afterUpsert2 (saveRequest s { r with level2 := some (level2Updated m d) }) u
        (level2Updated m d) := by
  unfold upsertLevel2Request
  rw [hf]
  simp [h2]

/-- The create branch of `upsertLevel2Request`. -/
theorem upsertLevel2_create (s : Store) (u : User) (m : VerificationRequestLevel2Model)
    (hf : findCreatedRequest s u.id "level-2" = none) :
    upsertLevel2Request s u m =
      afterUpsert2 ({ s with
          requests := s.requests ++
            [{ id := s.nextId, user := u.id, level := "level-2", status := "created",
               level2 := some (level2Created u m) }],
          nextId := s.nextId + 1 }) u (level2Created u m) := by
  unfold upsertLevel2Request
  rw [hf]

/-- Claim C2: after upsertLevel2Request the pending request carries the
submitted contacts, and each confirmation flag is preserved exactly when the
submitted value equals the prior pending one — or, on first creation, is set
by comparison against the account's current contact value — and is false in
every other case. -/
theorem claim_C2 (s : Store) (u : User) (m : VerificationRequestLevel2Model)
    (hnodup : (s.requests.map VRequest.id).Nodup)
    (hwf2 : ∀ q ∈ s.requests, q.level = "level-2" → q.status = "created" → q.level2 ≠ none) :
    ∃ r', findCreatedRequest (upsertLevel2Request s u m).2 u.id "level-2" = some r' ∧
      r'.level2 = some
        { email := m.email, phone := m.phone,
          isEmailConfirmed := specEmailFlagAfter s u m.email,
          isPhoneConfirmed := specPhoneFlagAfter s u m.phone,
          validationComment := none, isValid := false } := by
  cases hf : findCreatedRequest s u.id "level-2" with
  | some r =>
    obtain ⟨hmem, -, hlv, hst⟩ := findCreatedRequest_spec s u.id "level-2" r hf
    obtain ⟨d, h2⟩ := Option.ne_none_iff_exists'.mp (hwf2 r hmem hlv hst)
    have hspec : level2Updated m d =
        { email := m.email, phone := m.phone,
          isEmailConfirmed := specEmailFlagAfter s u m.email,
          isPhoneConfirmed := specPhoneFlagAfter s u m.phone,
          validationComment := none, isValid := false } := by
      simp [level2Updated, specEmailFlagAfter, specPhoneFlagAfter, hf, h2]
    rw [upsertLevel2_update s u m r d hf h2]
    have hreq := afterUpsert2_requests
      (saveRequest s { r with level2 := some (level2Updated m d) }) u (level2Updated m d)
    refine ⟨{ r with level2 := some (level2Updated m d) }, ?_, by rw [hspec]⟩
    rw [findCreatedRequest_congr _ _ hreq]
    exact findCreated_saveRequest s u.id "level-2" r _ hnodup hf rfl rfl rfl rfl
  | none =>
    have hspec : level2Created u m =
        { email := m.email, phone := m.phone,
          isEmailConfirmed := specEmailFlagAfter s u m.email,
          isPhoneConfirmed := specPhoneFlagAfter s u m.phone,
          validationComment := none, isValid := false } := by
      simp [level2Created, specEmailFlagAfter, specPhoneFlagAfter, hf]
    rw [upsertLevel2_create s u m hf]
    have hreq := afterUpsert2_requests ({ s with
        requests := s.requests ++
          [{ id := s.nextId, user := u.id, level := "level-2", status := "created",
             level2 := some (level2Created u m) }],
        nextId := s.nextId + 1 }) u (level2Created u m)
    refine ⟨{ id := s.nextId, user := u.id, level := "level-2", status := "created",
              level2 := some (level2Created u m) }, ?_, by rw [hspec]⟩
    rw [findCreatedRequest_congr _ _ hreq]
    show (s.requests ++ [_]).find? (createdReqP u.id "level-2") = _
    exact findCreated_append s u.id "level-2" _ hf (by simp [createdReqP])

/-- Witness for C2: resubmission with a changed email and unchanged phone. -/
theorem claim_C2_witness :
    ∃ r', findCreatedRequest
        (upsertLevel2Request level2Store sampleUser ⟨"b@x.com", "+2000"⟩).2
        sampleUser.id "level-2" = some r' ∧
      r'.level2 = some
        { email := "b@x.com", phone := "+2000",
          isEmailConfirmed := specEmailFlagAfter level2Store sampleUser "b@x.com",
          isPhoneConfirmed := specPhoneFlagAfter level2Store sampleUser "+2000",
          validationComment := none, isValid := false } :=
  claim_C2 level2Store sampleUser ⟨"b@x.com", "+2000"⟩ (by decide) (by decide)

/-- Resetting one purpose's scope and appending one check of that purpose
does not disturb the checks of a different purpose. -/
theorem filter_scope_other_append (l : List Check) (uid : Nat) (ty1 ty2 : String) (c : Check)
    (hcty : c.type = ty2) (hne : ty1 ≠ ty2) :
    ((l.filter (fun x => !(checkScopeP uid ty2 x))) ++ [c]).filter (checkScopeP uid ty1) =
      l.filter (checkScopeP uid ty1) := by
  rw [List.filter_append]
  have h1 : (l.filter (fun x => !(checkScopeP uid ty2 x))).filter (checkScopeP uid ty1) =
      l.filter (checkScopeP uid ty1) := by
    apply filter_scope_skip
    intro x hx
    have hty : x.type = ty1 := (checkScopeP_spec uid ty1 x hx).2
    unfold checkScopeP
    simp [hty, hne]
  have h2 : ([c].filter (checkScopeP uid ty1)) = [] := by
    have hs : checkScopeP uid ty1 c = false := by
      unfold checkScopeP
      simp [hcty]
      exact fun _ hcontra => hne hcontra.symm
    simp [hs]
  rw [h1, h2, List.append_nil]

theorem afterUpsert2_skip (S1 : Store) (u : User) (d2 : Level2Data)
    (hp : d2.isPhoneConfirmed = true) (he : d2.isEmailConfirmed = true) :
    afterUpsert2 S1 u d2 = (.ok (), S1) := by
  unfold afterUpsert2
  simp [hp, he]

theorem afterUpsert2_phoneOnly (S1 : Store) (u : User) (d2 : Level2Data) (SP : Store)
    (hp : d2.isPhoneConfirmed = false) (he : d2.isEmailConfirmed = true)
    (hps : validatePhone S1 u = (.ok (), SP)) :
    afterUpsert2 S1 u d2 = (.ok (), SP) := by
  unfold afterUpsert2
  simp [hp, he, hps]

theorem afterUpsert2_emailOnly (S1 : Store) (u : User) (d2 : Level2Data)
    (hp : d2.isPhoneConfirmed = true) (he : d2.isEmailConfirmed = false) :
    afterUpsert2 S1 u d2 = validateEmail S1 u := by
  unfold afterUpsert2
  simp [hp, he]

theorem afterUpsert2_split (S1 : Store) (u : User) (d2 : Level2Data) (SP : Store)
    (hp : d2.isPhoneConfirmed = false) (he : d2.isEmailConfirmed = false)
    (hps : validatePhone S1 u = (.ok (), SP)) :
    afterUpsert2 S1 u d2 = validateEmail SP u := by
  unfold afterUpsert2
  simp [hp, he, hps]

/-- Two successive scope resets (phone then email), each appending its fresh
check: each scope ends holding exactly its fresh check. -/
theorem filter_double_reset (l : List Check) (uid : Nat) (c1 c2 : Check)
    (h2 : c2.type = "confirm-email")
    (hu1 : checkScopeP uid "confirm-phone" c1 = true)
    (hu2 : checkScopeP uid "confirm-email" c2 = true) :
    (((l.filter (fun x => !(checkScopeP uid "confirm-phone" x)) ++ [c1]).filter
        (fun x => !(checkScopeP uid "confirm-email" x))) ++ [c2]).filter
      (checkScopeP uid "confirm-phone") = [c1] ∧
    (((l.filter (fun x => !(checkScopeP uid "confirm-phone" x)) ++ [c1]).filter
        (fun x => !(checkScopeP uid "confirm-email" x))) ++ [c2]).filter
      (checkScopeP uid "confirm-email") = [c2] := by
  constructor
  · rw [filter_scope_other_append
      (l.filter (fun x => !(checkScopeP uid "confirm-phone" x)) ++ [c1])
      uid "confirm-phone" "confirm-email" c2 h2 (by decide)]
    exact filter_scope_reset l uid "confirm-phone" c1 hu1
  · exact filter_scope_reset
      (l.filter (fun x => !(checkScopeP uid "confirm-phone" x)) ++ [c1])
      uid "confirm-email" c2 hu2

/-- The re-verification triggers after a level-2 upsert: each scope's checks
are reissued exactly when the corresponding flag on the written request is
false, and a confirmation mail is dispatched exactly when the email flag is
false. -/
theorem afterUpsert2_checks_mails (S1 : Store) (u : User) (d2 : Level2Data) (r1 : VRequest)
    (hf1 : findCreatedRequest S1 u.id "level-2" = some r1) (h21 : r1.level2 = some d2) :
    (d2.isPhoneConfirmed = true →
       checksFor (afterUpsert2 S1 u d2).2 u.id "confirm-phone" =
         checksFor S1 u.id "confirm-phone") ∧
    (d2.isPhoneConfirmed = false →
       ∃ cp, checksFor (afterUpsert2 S1 u d2).2 u.id "confirm-phone" = [cp] ∧
         cp.user = u.id ∧ cp.type = "confirm-phone" ∧ cp.payload = d2.phone) ∧
    (d2.isEmailConfirmed = true →
       checksFor (afterUpsert2 S1 u d2).2 u.id "confirm-email" =
         checksFor S1 u.id "confirm-email" ∧
       (afterUpsert2 S1 u d2).2.mails = S1.mails) ∧
    (d2.isEmailConfirmed = false →
       (∃ ce, checksFor (afterUpsert2 S1 u d2).2 u.id "confirm-email" = [ce] ∧
          ce.user = u.id ∧ ce.type = "confirm-email" ∧ ce.payload = d2.email) ∧
       (∃ msg, (afterUpsert2 S1 u d2).2.mails = S1.mails ++ [msg] ∧
          msg.toAddr = d2.email)) := by
  cases hp : d2.isPhoneConfirmed with
  | true =>
    cases he : d2.isEmailConfirmed with
    | true =>
      rw [afterUpsert2_skip S1 u d2 hp he]
      exact ⟨fun _ => rfl, fun h => Bool.noConfusion h, fun _ => ⟨rfl, rfl⟩,
        fun h => Bool.noConfusion h⟩
    | false =>
      rw [afterUpsert2_emailOnly S1 u d2 hp he,
        validateEmail_success S1 u r1 d2 hf1 h21 he]
      refine ⟨fun _ => ?_, fun h => Bool.noConfusion h, fun h => Bool.noConfusion h,
        fun _ => ⟨⟨⟨S1.nextId, u.id, "confirm-email", d2.email, freshCode S1.nextId⟩,
          ?_, rfl, rfl, rfl⟩, ⟨_, rfl, rfl⟩⟩⟩
      · exact filter_scope_other_append S1.checks u.id "confirm-phone" "confirm-email" _
          rfl (by decide)
      · exact filter_scope_reset S1.checks u.id "confirm-email" _ (by simp [checkScopeP])
  | false =>
    have hps := validatePhone_success S1 u r1 d2 hf1 h21 hp
    cases he : d2.isEmailConfirmed with
    | true =>
      rw [afterUpsert2_phoneOnly S1 u d2 _ hp he hps]
      refine ⟨fun h => Bool.noConfusion h,
        fun _ => ⟨⟨S1.nextId, u.id, "confirm-phone", d2.phone, freshCode S1.nextId⟩,
          ?_, rfl, rfl, rfl⟩,
        fun _ => ⟨?_, rfl⟩, fun h => Bool.noConfusion h⟩
      · exact filter_scope_reset S1.checks u.id "confirm-phone" _ (by simp [checkScopeP])
      · exact filter_scope_other_append S1.checks u.id "confirm-email" "confirm-phone" _
          rfl (by decide)
    | false =>
      have hfSP : findCreatedRequest
          ({ S1 with
            checks := S1.checks.filter (fun c => !(checkScopeP u.id "confirm-phone" c)) ++
              [{ id := S1.nextId, user := u.id, type := "confirm-phone",
                 payload := d2.phone, check := freshCode S1.nextId }],
            nextId := S1.nextId + 1 }) u.id "level-2" = some r1 := hf1
      rw [afterUpsert2_split S1 u d2 _ hp he hps,
        validateEmail_success _ u r1 d2 hfSP h21 he]
      refine ⟨fun h => Bool.noConfusion h,
        fun _ => ⟨⟨S1.nextId, u.id, "confirm-phone", d2.phone, freshCode S1.nextId⟩, ?_, rfl, rfl, rfl⟩,
        fun h => Bool.noConfusion h,
        fun _ => ⟨⟨⟨S1.nextId + 1, u.id, "confirm-email", d2.email, freshCode (S1.nextId + 1)⟩,
          ?_, rfl, rfl, rfl⟩, ⟨_, rfl, rfl⟩⟩⟩
      · exact (filter_double_reset S1.checks u.id
          ({ id := S1.nextId, user := u.id, type := "confirm-phone",
             payload := d2.phone, check := freshCode S1.nextId } : Check)
          ({ id := S1.nextId + 1, user := u.id, type := "confirm-email",
             payload := d2.email, check := freshCode (S1.nextId + 1) } : Check)
          rfl (by simp [checkScopeP]) (by simp [checkScopeP])).1
      · exact (filter_double_reset S1.checks u.id
          ({ id := S1.nextId, user := u.id, type := "confirm-phone",
             payload := d2.phone, check := freshCode S1.nextId } : Check)
          ({ id := S1.nextId + 1, user := u.id, type := "confirm-email",
             payload := d2.email, check := freshCode (S1.nextId + 1) } : Check)
          rfl (by simp [checkScopeP]) (by simp [checkScopeP])).2

/-- Claim C6: after upsertLevel2Request, phone re-verification fires exactly
when the resulting isPhoneConfirmed is false — the account's confirm-phone
scope then holds exactly one fresh check carrying the submitted phone — and
email re-verification fires exactly when the resulting isEmailConfirmed is
false, adding exactly one confirmation mail; a flag preserved true leaves the
corresponding scope's checks (and for email, the mail log) untouched.  In
particular, submitting an unchanged confirmed email with a changed phone
issues exactly one phone check and zero email checks or mails. -/
theorem claim_C6 (s : Store) (u : User) (m : VerificationRequestLevel2Model)
    (hnodup : (s.requests.map VRequest.id).Nodup)
    (hwf2 : ∀ q ∈ s.requests, q.level = "level-2" → q.status = "created" → q.level2 ≠ none) :
    (specPhoneFlagAfter s u m.phone = true →
       checksFor (upsertLevel2Request s u m).2 u.id "confirm-phone" =
         checksFor s u.id "confirm-phone") ∧
    (specPhoneFlagAfter s u m.phone = false →
       ∃ cp, checksFor (upsertLevel2Request s u m).2 u.id "confirm-phone" = [cp] ∧
         cp.user = u.id ∧ cp.type = "confirm-phone" ∧ cp.payload = m.phone) ∧
    (specEmailFlagAfter s u m.email = true →
       checksFor (upsertLevel2Request s u m).2 u.id "confirm-email" =
         checksFor s u.id "confirm-email" ∧
       (upsertLevel2Request s u m).2.mails = s.mails) ∧
    (specEmailFlagAfter s u m.email = false →
       (∃ ce, checksFor (upsertLevel2Request s u m).2 u.id "confirm-email" = [ce] ∧
          ce.user = u.id ∧ ce.type = "confirm-email" ∧ ce.payload = m.email) ∧
       (∃ msg, (upsertLevel2Request s u m).2.mails = s.mails ++ [msg] ∧
          msg.toAddr = m.email)) := by
  cases hf : findCreatedRequest s u.id "level-2" with
  | some r =>
    obtain ⟨hmem, -, hlv, hst⟩ := findCreatedRequest_spec s u.id "level-2" r hf
    obtain ⟨d, h2⟩ := Option.ne_none_iff_exists'.mp (hwf2 r hmem hlv hst)
    have hpe : (level2Updated m d).isPhoneConfirmed = specPhoneFlagAfter s u m.phone := by
      simp [level2Updated, specPhoneFlagAfter, hf, h2]
    have hee : (level2Updated m d).isEmailConfirmed = specEmailFlagAfter s u m.email := by
      simp [level2Updated, specEmailFlagAfter, hf, h2]
    rw [upsertLevel2_update s u m r d hf h2]
    have hf1 := findCreated_saveRequest s u.id "level-2" r
      ({ r with level2 := some (level2Updated m d) }) hnodup hf rfl rfl rfl rfl
    have heff := afterUpsert2_checks_mails
      (saveRequest s ({ r with level2 := some (level2Updated m d) })) u
      (level2Updated m d) ({ r with level2 := some (level2Updated m d) }) hf1 rfl
    refine ⟨?_, ?_, ?_, ?_⟩
    · intro h
      exact heff.1 (hpe.trans h)
    · intro h
      obtain ⟨cp, ha, hb, hc, hd⟩ := heff.2.1 (hpe.trans h)
      exact ⟨cp, ha, hb, hc, hd⟩
    · intro h
      obtain ⟨ha, hb⟩ := heff.2.2.1 (hee.trans h)
      exact ⟨ha, hb⟩
    · intro h
      obtain ⟨⟨ce, ha, hb, hc, hd⟩, msg, hm1, hm2⟩ := heff.2.2.2 (hee.trans h)
      exact ⟨⟨ce, ha, hb, hc, hd⟩, msg, hm1, hm2⟩
  | none =>
    have hpe : (level2Created u m).isPhoneConfirmed = specPhoneFlagAfter s u m.phone := by
      simp [level2Created, specPhoneFlagAfter, hf]
    have hee : (level2Created u m).isEmailConfirmed = specEmailFlagAfter s u m.email := by
      simp [level2Created, specEmailFlagAfter, hf]
    rw [upsertLevel2_create s u m hf]
    have hf1 := findCreated_append s u.id "level-2"
      ({ id := s.nextId, user := u.id, level := "level-2", status := "created",
         level2 := some (level2Created u m) }) hf (by simp [createdReqP])
    have heff := afterUpsert2_checks_mails
      ({ s with
         requests := s.requests ++
           [{ id := s.nextId, user := u.id, level := "level-2", status := "created",
              level2 := some (level2Created u m) }],
         nextId := s.nextId + 1 }) u (level2Created u m)
      ({ id := s.nextId, user := u.id, level := "level-2", status := "created",
         level2 := some (level2Created u m) }) hf1 rfl
    refine ⟨?_, ?_, ?_, ?_⟩
    · intro h
      exact heff.1 (hpe.trans h)
    · intro h
      obtain ⟨cp, ha, hb, hc, hd⟩ := heff.2.1 (hpe.trans h)
      exact ⟨cp, ha, hb, hc, hd⟩
    · intro h
      obtain ⟨ha, hb⟩ := heff.2.2.1 (hee.trans h)
      exact ⟨ha, hb⟩
    · intro h
      obtain ⟨⟨ce, ha, hb, hc, hd⟩, msg, hm1, hm2⟩ := heff.2.2.2 (hee.trans h)
      exact ⟨⟨ce, ha, hb, hc, hd⟩, msg, hm1, hm2⟩

/-- Witness for C6: resubmitting the sample request with its confirmed email
unchanged and the phone changed issues exactly one phone check and no email
check or mail. -/
theorem claim_C6_witness :
    (∃ cp, checksFor (upsertLevel2Request confirmedStore sampleUser ⟨"a@x.com", "+3000"⟩).2
        sampleUser.id "confirm-phone" = [cp] ∧
      cp.user = sampleUser.id ∧ cp.type = "confirm-phone" ∧ cp.payload = "+3000") ∧
    (checksFor (upsertLevel2Request confirmedStore sampleUser ⟨"a@x.com", "+3000"⟩).2
        sampleUser.id "confirm-email" = checksFor confirmedStore sampleUser.id "confirm-email" ∧
     (upsertLevel2Request confirmedStore sampleUser ⟨"a@x.com", "+3000"⟩).2.mails =
       confirmedStore.mails) :=
  ⟨(claim_C6 confirmedStore sampleUser ⟨"a@x.com", "+3000"⟩ (by decide) (by decide)).2.1
      (by decide),
   (claim_C6 confirmedStore sampleUser ⟨"a@x.com", "+3000"⟩ (by decide) (by decide)).2.2.1
      (by decide)⟩

/-- Claim C1: from a store with unique request ids holding at most one
`created` request per (account, level), every submit operation preserves that
invariant: when a created request for the scope exists it is mutated in place
— the stored id sequence is unchanged — and otherwise exactly one new created
request for the scope is appended. -/
theorem claim_C1 (s : Store) (u : User)
    (m1 : VerificationRequestLevel1Model) (m2 : VerificationRequestLevel2Model)
    (m3 : VerificationRequestLevel3Model) (m4 : VerificationRequestLevel4Model)
    (hnodup : (s.requests.map VRequest.id).Nodup)
    (hInv : uniqueCreated s) :
    (uniqueCreated (upsertLevel1Request s u m1) ∧
      ((findCreatedRequest s u.id "level-1").isSome →
        (upsertLevel1Request s u m1).requests.map VRequest.id = s.requests.map VRequest.id) ∧
      (findCreatedRequest s u.id "level-1" = none →
        ∃ nr, (upsertLevel1Request s u m1).requests = s.requests ++ [nr] ∧
          nr.user = u.id ∧ nr.level = "level-1" ∧ nr.status = "created")) ∧
    (uniqueCreated (upsertLevel2Request s u m2).2 ∧
      ((findCreatedRequest s u.id "level-2").isSome →
        (upsertLevel2Request s u m2).2.requests.map VRequest.id = s.requests.map VRequest.id) ∧
      (findCreatedRequest s u.id "level-2" = none →
        ∃ nr, (upsertLevel2Request s u m2).2.requests = s.requests ++ [nr] ∧
          nr.user = u.id ∧ nr.level = "level-2" ∧ nr.status = "created")) ∧
    (uniqueCreated (upsertLevel3Request s u m3) ∧
      ((findCreatedRequest s u.id "level-3").isSome →
        (upsertLevel3Request s u m3).requests.map VRequest.id = s.requests.map VRequest.id) ∧
      (findCreatedRequest s u.id "level-3" = none →
        ∃ nr, (upsertLevel3Request s u m3).requests = s.requests ++ [nr] ∧
          nr.user = u.id ∧ nr.level = "level-3" ∧ nr.status = "created")) ∧
    (uniqueCreated (upsertLevel4Request s u m4) ∧
      ((findCreatedRequest s u.id "level-4").isSome →
        (upsertLevel4Request s u m4).requests.map VRequest.id = s.requests.map VRequest.id) ∧
      (findCreatedRequest s u.id "level-4" = none →
        ∃ nr, (upsertLevel4Request s u m4).requests = s.requests ++ [nr] ∧
          nr.user = u.id ∧ nr.level = "level-4" ∧ nr.status = "created")) := by
  refine ⟨?_, ?_, ?_, ?_⟩
  · cases hf : findCreatedRequest s u.id "level-1" with
    | some r =>
      have hrun : upsertLevel1Request s u m1 = saveRequest s
          ({ r with
             level1 := some
               { userName := m1.userName, birthDate := m1.birthDate, avatar := m1.avatar,
                 validationComment := none, isValid := false } }) := by
        unfold upsertLevel1Request
        rw [hf]
      refine ⟨?_, fun _ => ?_, fun hN => by cases hN⟩
      · rw [hrun]
        exact uniqueCreated_saveRequest s r _ hnodup (List.mem_of_find?_eq_some hf)
          rfl rfl rfl rfl hInv
      · rw [hrun]
        exact saveRequest_map_id s _
    | none =>
      have hrun : upsertLevel1Request s u m1 =
          { s with
            requests := s.requests ++
              [{ id := s.nextId, user := u.id, level := "level-1", status := "created",
                 level1 := some
                   { userName := m1.userName, birthDate := m1.birthDate, avatar := m1.avatar,
                     validationComment := none, isValid := false } }],
            nextId := s.nextId + 1 } := by
        unfold upsertLevel1Request
        rw [hf]
      refine ⟨?_, fun hS => by simp at hS, fun _ => ⟨_, by rw [hrun], rfl, rfl, rfl⟩⟩
      rw [hrun]
      exact uniqueCreated_append s u.id "level-1" _ hf rfl rfl hInv
  · cases hf : findCreatedRequest s u.id "level-2" with
    | some r =>
      cases h2 : r.level2 with
      | none =>
        have hrun : upsertLevel2Request s u m2 = (.error .typeError, s) := by
          unfold upsertLevel2Request
          rw [hf]
          simp [h2]
        refine ⟨?_, fun _ => ?_, fun hN => by cases hN⟩
        · rw [hrun]
          exact hInv
        · rw [hrun]
      | some d =>
        rw [upsertLevel2_update s u m2 r d hf h2]
        have hreq := afterUpsert2_requests
          (saveRequest s ({ r with level2 := some (level2Updated m2 d) })) u (level2Updated m2 d)
        refine ⟨?_, fun _ => ?_, fun hN => by cases hN⟩
        · show ((afterUpsert2 _ u (level2Updated m2 d)).2.requests).Pairwise distinctScope
          rw [hreq]
          exact uniqueCreated_saveRequest s r _ hnodup (List.mem_of_find?_eq_some hf)
            rfl rfl rfl rfl hInv
        · rw [hreq]
          exact saveRequest_map_id s _
    | none =>
      rw [upsertLevel2_create s u m2 hf]
      have hreq := afterUpsert2_requests
        ({ s with
           requests := s.requests ++
             [{ id := s.nextId, user := u.id, level := "level-2", status := "created",
                level2 := some (level2Created u m2) }],
           nextId := s.nextId + 1 }) u (level2Created u m2)
      refine ⟨?_, fun hS => by simp at hS, fun _ => ⟨_, by rw [hreq], rfl, rfl, rfl⟩⟩
      show ((afterUpsert2 _ u (level2Created u m2)).2.requests).Pairwise distinctScope
      rw [hreq]
      exact uniqueCreated_append s u.id "level-2" _ hf rfl rfl hInv
  · cases hf : findCreatedRequest s u.id "level-3" with
    | some r =>
      have hrun : upsertLevel3Request s u m3 = saveRequest s
          ({ r with
             level3 := some
               { passport := m3.passport, expirationDate := m3.expirationDate,
                 attachments := m3.attachments } }) := by
        unfold upsertLevel3Request
        rw [hf]
      refine ⟨?_, fun _ => ?_, fun hN => by cases hN⟩
      · rw [hrun]
        exact uniqueCreated_saveRequest s r _ hnodup (List.mem_of_find?_eq_some hf)
          rfl rfl rfl rfl hInv
      · rw [hrun]
        exact saveRequest_map_id s _
    | none =>
      have hrun : upsertLevel3Request s u m3 =
          { s with
            requests := s.requests ++
              [{ id := s.nextId, user := u.id, level := "level-3", status := "created",
                 level3 := some
                   { passport := m3.passport, expirationDate := m3.expirationDate,
                     attachments := m3.attachments } }],
            nextId := s.nextId + 1 } := by
        unfold upsertLevel3Request
        rw [hf]
      refine ⟨?_, fun hS => by simp at hS, fun _ => ⟨_, by rw [hrun], rfl, rfl, rfl⟩⟩
      rw [hrun]
      exact uniqueCreated_append s u.id "level-3" _ hf rfl rfl hInv
  · cases hf : findCreatedRequest s u.id "level-4" with
    | some r =>
      have hrun : upsertLevel4Request s u m4 = saveRequest s
          ({ r with
             level4 := some
               { country := m4.country, state := m4.state, city := m4.city, zip := m4.zip,
                 addressLine1 := m4.addressLine1, addressLine2 := m4.addressLine2,
                 attachments := m4.attachments } }) := by
        unfold upsertLevel4Request
        rw [hf]
      refine ⟨?_, fun _ => ?_, fun hN => by cases hN⟩
      · rw [hrun]
        exact uniqueCreated_saveRequest s r _ hnodup (List.mem_of_find?_eq_some hf)
          rfl rfl rfl rfl hInv
      · rw [hrun]
        exact saveRequest_map_id s _
    | none =>
      have hrun : upsertLevel4Request s u m4 =
          { s with
            requests := s.requests ++
              [{ id := s.nextId, user := u.id, level := "level-4", status := "created",
                 level4 := some
                   { country := m4.country, state := m4.state, city := m4.city, zip := m4.zip,
                     addressLine1 := m4.addressLine1, addressLine2 := m4.addressLine2,
                     attachments := m4.attachments } }],
            nextId := s.nextId + 1 } := by
        unfold upsertLevel4Request
        rw [hf]
      refine ⟨?_, fun hS => by simp at hS, fun _ => ⟨_, by rw [hrun], rfl, rfl, rfl⟩⟩
      rw [hrun]
      exact uniqueCreated_append s u.id "level-4" _ hf rfl rfl hInv

/-- Witness for C1 on the sample store: each submit keeps the invariant, and
the level-2 resubmission mutates in place (id sequence unchanged). -/
theorem claim_C1_witness :
    uniqueCreated (upsertLevel1Request level2Store sampleUser ⟨"alice", "1990-01-01", "ava"⟩) ∧
    uniqueCreated (upsertLevel2Request level2Store sampleUser ⟨"b@x.com", "+2000"⟩).2 ∧
    uniqueCreated (upsertLevel3Request level2Store sampleUser ⟨"P123", "2030-01-01", []⟩) ∧
    uniqueCreated (upsertLevel4Request level2Store sampleUser
      ⟨"US", "CA", "SF", "94100", "a", "b", []⟩) ∧
    (upsertLevel2Request level2Store sampleUser ⟨"b@x.com", "+2000"⟩).2.requests.map
        VRequest.id =
      level2Store.requests.map VRequest.id :=
  let h := claim_C1 level2Store sampleUser ⟨"alice", "1990-01-01", "ava"⟩ ⟨"b@x.com", "+2000"⟩
    ⟨"P123", "2030-01-01", []⟩ ⟨"US", "CA", "SF", "94100", "a", "b", []⟩ (by decide) (by decide)
  ⟨h.1.1, h.2.1.1, h.2.2.1.1, h.2.2.2.1, h.2.1.2.1 (by decide)⟩

end LaborX
